import Mathlib

/-!
Shallow embedding of the budget-first itinerary optimizer of the GoaGuide
repository (class `ItineraryOptimizer` in the itinerary route module,
src/unnamed/part_002), together with proofs about the frozen claims.

Modelling conventions, used consistently below:

* JavaScript numbers are modelled as exact rationals (`ℚ`); all arithmetic in
  the optimizer is on small money/score values where binary-float rounding is
  not observable at the inputs considered.
* A JavaScript `Date` is modelled as a record carrying the projections the
  code uses: epoch milliseconds (comparison `new Date(a) > now`), day of
  month (`getDate()`), and the locale time string (`toLocaleTimeString`).
* The class fields `budget`, `partySize`, `tripType`, `preferences.interests`
  (`this.…`) are gathered in a `Ctx` record passed explicitly.
* The haversine distance (`haversineKm`, a transcendental computation on
  `Math.sin`/`Math.cos`) is an explicit function parameter `hav`; every
  theorem about the scheduler is proved for an arbitrary such function.
* `Array.prototype.sort` with a comparator (stable since ES2019) is modelled
  by a stable insertion sort `sortBy`; for a total preorder the result of any
  stable sort is unique, so this is semantics-preserving.
* `JSON.parse(JSON.stringify(x))` (the deep copy taken by
  `createBudgetAlternative`) is modelled by a structural copy
  `deepCopyItinerary`, which on pure values is provably the identity.
* Latitude/longitude always occur together in the data (`ST_X`/`ST_Y` of one
  geometry column), so they are modelled as one optional coordinate pair.
* Mutation of the itinerary arrays in `removeExpensiveActivities` /
  `replaceCheaperOptions` / the per-day budget trim is modelled by functions
  returning the updated value; the `while`-loop popping from the end of the
  activities array is modelled by structural recursion on the reversed list.
* Presentation-only fields that no claim mentions (the ISO date string, the
  hotel deep links, the optional LLM day tip, `cost_breakdown`,
  `stay_suggestions`) are omitted from the records.
-/

namespace GoaGuide

/-- JavaScript `Math.round`: half-up rounding, `Math.round x = ⌊x + 0.5⌋`. -/
def jsRound (q : ℚ) : ℚ := ((⌊q + 1/2⌋ : ℤ) : ℚ)

/-- JavaScript `x || d` for an optional number `x`: `undefined` and `0` are
falsy and give `d`. -/
def jsOr (x : Option ℚ) (d : ℚ) : ℚ :=
  match x with
  | some v => if v = 0 then d else v
  | none => d

/-- Character-list test: `pat` begins `s`. -/
def charsStart : List Char → List Char → Bool
  | [], _ => true
  | _ :: _, [] => false
  | p :: ps, c :: cs => p == c && charsStart ps cs

/-- Character-list test: `pat` occurs somewhere in `s`. -/
def charsHave (pat : List Char) : List Char → Bool
  | [] => pat.isEmpty
  | c :: cs => charsStart pat (c :: cs) || charsHave pat cs

/-- JavaScript `/pat/.test(s)` for a literal pattern: substring containment
(written over the character list so it evaluates in the kernel). -/
def jsTest (pat s : String) : Bool := charsHave pat.data s.data

/-- JavaScript `String.prototype.toLowerCase` on the character list. -/
def jsLower (s : String) : String := ⟨s.data.map Char.toLower⟩

/-- Lexicographic order on character lists, the order
`String.prototype.localeCompare` induces on ASCII `HH:MM` time strings. -/
def charsLe : List Char → List Char → Bool
  | [], _ => true
  | _ :: _, [] => false
  | a :: as, b :: bs => if a = b then charsLe as bs else decide (a < b)

/-- `a.localeCompare b ≤ 0` for the ASCII strings compared by the code. -/
def timeLe (a b : String) : Bool := charsLe a.data b.data

/-- Stable insert for `sortBy`: `x` is placed before the first element that is
not strictly below it, so elements comparing equal keep their input order. -/
def insertBy (le : α → α → Bool) (x : α) : List α → List α
  | [] => [x]
  | y :: ys => if le y x && !(le x y) then y :: insertBy le x ys else x :: y :: ys

/-- Stable sort by a boolean comparison, the model of the stable
`Array.prototype.sort(cmp)`: `le a b` means `cmp(a,b) ≤ 0`. -/
def sortBy (le : α → α → Bool) : List α → List α
  | [] => []
  | x :: xs => insertBy le x (sortBy le xs)

/-- Projections of a JavaScript `Date` value used by the optimizer. -/
structure JsDate where
  ms : ℤ
  dayOfMonth : ℕ
  timeHHMM : String
deriving DecidableEq

/-- The trip parameters held in the `ItineraryOptimizer` instance fields
(`this.budget`, `this.partySize`, `this.tripType`,
`this.preferences.interests`). -/
structure Ctx where
  budget : ℚ
  partySize : ℕ
  tripType : String
  interests : List String

/-- A weather observation; both fields may be absent (the object spread in
`getWeatherData` can produce an object with neither field set). -/
structure Weather where
  temperature : Option ℚ
  condition : Option String
deriving DecidableEq

/-- The label object built by `assessWeatherImpact`: each key is set only on
the branches that assign it. -/
structure Impact where
  outdoor_activities : Option String := none
  beach_activities : Option String := none
  indoor_activities : Option String := none
deriving DecidableEq

/-- A candidate POI row as the optimizer receives it. -/
structure POI where
  name : String
  category : String
  price_range : String
  rating : Option ℚ
  coords : Option (ℚ × ℚ)
deriving DecidableEq

/-- A POI annotated by `scorePOIs` (`{ ...poi, score, estimated_cost }`). -/
structure ScoredPOI extends POI where
  score : ℚ
  estimated_cost : ℚ
deriving DecidableEq

/-- A candidate event row as the optimizer receives it. -/
structure Event where
  title : String
  description : String
  category : String
  price : Option ℚ
  start_date : JsDate
  coords : Option (ℚ × ℚ)
deriving DecidableEq

/-- An event annotated by `filterEvents` (`{ ...event, estimated_cost }`). -/
structure ScoredEvent extends Event where
  estimated_cost : ℚ
deriving DecidableEq

/-- The `activity` field of a scheduled entry holds either a scored POI or a
scored event. -/
inductive ActSource where
  | poi (p : ScoredPOI)
  | event (e : ScoredEvent)
deriving DecidableEq

/-- `a.estimated_cost` of the underlying activity. -/
def ActSource.cost : ActSource → ℚ
  | .poi p => p.estimated_cost
  | .event e => e.estimated_cost

/-- `a.category` of the underlying activity. -/
def ActSource.category : ActSource → String
  | .poi p => p.category
  | .event e => e.category

/-- The latitude/longitude pair of the underlying activity. -/
def ActSource.coords : ActSource → Option (ℚ × ℚ)
  | .poi p => p.coords
  | .event e => e.coords

/-- `activity.activity.estimated_cost = c` (the in-place cost update of
`replaceCheaperOptions`). -/
def ActSource.withCost (c : ℚ) : ActSource → ActSource
  | .poi p => .poi { p with estimated_cost := c }
  | .event e => .event { e with estimated_cost := c }

/-- One scheduled activity entry of a day plan. -/
structure Entry where
  time : String
  typ : String
  activity : ActSource
  duration : String
  notes : String
  travel_time_min : Option ℚ := none
  travel_dist_km : Option ℚ := none
deriving DecidableEq

/-- `(a.activity.estimated_cost || 0)` — the cost the scheduler, the per-day
trim and the alternative strategies attribute to an entry. -/
def entryCost (a : Entry) : ℚ := a.activity.cost

/-- A day plan (`dayItinerary` object); the ISO date string and the hotel
links are presentation-only and omitted. -/
structure DayPlan where
  day : ℕ
  activities : List Entry
  estimated_cost : ℚ
  transport_cost : ℚ
  weather_recommendation : String
deriving DecidableEq

/-- A budget alternative produced by `createBudgetAlternative`. -/
structure Alternative where
  typ : String
  description : String
  itinerary : List DayPlan
  savings : ℚ
deriving DecidableEq

/-- The result object of `optimizeItinerary` (weather echo, cost breakdown
and stay suggestions omitted: no claim mentions them). -/
structure ItineraryResult where
  itinerary : List DayPlan
  budget_status : String
  total_cost : ℚ
  budget_limit : ℚ
  alternatives : List Alternative
  optimization_score : ℚ

/-- The distance estimator parameter standing for `haversineKm` (a
transcendental computation; every theorem holds for an arbitrary one). -/
def HavFn : Type := (ℚ × ℚ) → (ℚ × ℚ) → ℚ

/-- The per-trip-type budget allocation shares. -/
structure Alloc where
  accommodation : ℚ
  activities : ℚ
  food : ℚ
  transport : ℚ

/-- `getBudgetAllocation` — the fixed allocation table, defaulting to `solo`
for an unknown trip type. -/
def getBudgetAllocation (ctx : Ctx) : Alloc :=
  if ctx.tripType == "family" then ⟨4/10, 3/10, 2/10, 1/10⟩
  else if ctx.tripType == "solo" then ⟨3/10, 4/10, 15/100, 15/100⟩
  else if ctx.tripType == "couple" then ⟨35/100, 35/100, 2/10, 1/10⟩
  else if ctx.tripType == "friends" then ⟨3/10, 4/10, 2/10, 1/10⟩
  else if ctx.tripType == "adventure" then ⟨25/100, 5/10, 15/100, 1/10⟩
  else if ctx.tripType == "business" then ⟨5/10, 2/10, 2/10, 1/10⟩
  else ⟨3/10, 4/10, 15/100, 15/100⟩

/-- `assessWeatherImpact` — `none` is the `!weather` guard; note that only the
`Rain` branch assigns `indoor_activities`. -/
def assessWeatherImpact (weather : Option Weather) : Impact :=
  match weather with
  | none =>
      { outdoor_activities := some "favorable", beach_activities := some "favorable" }
  | some w =>
      if w.condition == some "Rain" then
        { outdoor_activities := some "unfavorable"
          beach_activities := some "unfavorable"
          indoor_activities := some "favorable" }
      else if (match w.temperature with | some t => decide (35 < t) | none => false) then
        { outdoor_activities := some "moderate", beach_activities := some "favorable" }
      else
        { outdoor_activities := some "favorable", beach_activities := some "favorable" }

/-- The `baseCosts` object of `estimatePOICost`: per-person base by price
range, 300 for an unknown key. -/
def baseCosts (price_range : String) : ℚ :=
  if price_range == "free" then 0
  else if price_range == "budget" then 250
  else if price_range == "mid_range" then 700
  else if price_range == "luxury" then 1400
  else 300

/-- The `multipliers` object of `estimatePOICost`: category realism
multiplier, 1.0 for an unknown category. -/
def multipliers (cat : String) : ℚ :=
  if cat == "beach" then 8/10
  else if cat == "historical" then 5/10
  else if cat == "religious" then 4/10
  else if cat == "nature" then 9/10
  else if cat == "adventure" then 16/10
  else if cat == "entertainment" then 12/10
  else if cat == "market" then 6/10
  else if cat == "shopping" then 6/10
  else 1

/-- The `mins` object of `estimatePOICost`: per-person category minimum,
`mins.default = 100` for an unknown category. -/
def catMins (cat : String) : ℚ :=
  if cat == "beach" then 150
  else if cat == "historical" then 50
  else if cat == "religious" then 0
  else if cat == "nature" then 100
  else if cat == "adventure" then 600
  else if cat == "entertainment" then 250
  else if cat == "market" then 150
  else if cat == "shopping" then 150
  else 100

/-- `estimatePOICost` — price-tier base, category multiplier, per-person
rounding, category minimum, then the party-size scaling. -/
def estimatePOICost (ctx : Ctx) (poi : POI) : ℚ :=
  let cat := jsLower poi.category
  let perPerson := jsRound (baseCosts poi.price_range * multipliers cat)
  let finalPerPerson := max perPerson (catMins cat)
  finalPerPerson * ctx.partySize

/-- The nested per-trip-type category preference table of
`getTripTypeScore`; `none` for a key the table does not hold. -/
def tripTypePref (tripType category : String) : Option ℚ :=
  if tripType == "family" then
    if category == "beach" then some 15 else if category == "historical" then some 10
    else if category == "nature" then some 10 else if category == "religious" then some 5
    else none
  else if tripType == "solo" then
    if category == "beach" then some 10 else if category == "historical" then some 15
    else if category == "nature" then some 15 else if category == "adventure" then some 20
    else none
  else if tripType == "couple" then
    if category == "beach" then some 20 else if category == "historical" then some 10
    else if category == "nature" then some 15 else if category == "entertainment" then some 10
    else none
  else if tripType == "friends" then
    if category == "beach" then some 20 else if category == "entertainment" then some 20
    else if category == "adventure" then some 15 else none
  else if tripType == "adventure" then
    if category == "nature" then some 25 else if category == "adventure" then some 25
    else if category == "beach" then some 10 else none
  else if tripType == "business" then
    if category == "historical" then some 10 else if category == "entertainment" then some 15
    else if category == "nature" then some 5 else none
  else none

/-- `getTripTypeScore` — `preferences[tripType]?.[poi.category] || 5`. -/
def getTripTypeScore (poi : POI) (tripType : String) : ℚ :=
  (tripTypePref tripType poi.category).getD 5

/-- `matchCategory` — the fixed interest-tag → category table. -/
def matchCategory (poiCategory interest : String) : Bool :=
  if interest == "Beaches" then poiCategory == "beach"
  else if interest == "Historical sites" then
    poiCategory == "historical" || poiCategory == "religious"
  else if interest == "Adventure sports" then
    poiCategory == "adventure" || poiCategory == "nature"
  else if interest == "Nightlife" then poiCategory == "entertainment"
  else if interest == "Nature/Wildlife" then poiCategory == "nature"
  else if interest == "Shopping" then
    poiCategory == "market" || poiCategory == "shopping"
  else false

/-- The score `scorePOIs` computes for one POI: budget band bonus, trip-type
affinity, `(rating || 4.0) * 8`, and the interest-match bonus. -/
def poiScore (ctx : Ctx) (alloc : Alloc) (poi : POI) : ℚ :=
  let activityBudget := ctx.budget * ctx.partySize * alloc.activities
  let estimatedCost := estimatePOICost ctx poi
  let s1 : ℚ :=
    if estimatedCost ≤ activityBudget * (3/10) then 35
    else if estimatedCost ≤ activityBudget * (5/10) then 22
    else if estimatedCost ≤ activityBudget * (7/10) then 12
    else 0
  let s2 := s1 + getTripTypeScore poi ctx.tripType
  let s3 := s2 + jsOr poi.rating 4 * 8
  if ctx.interests.any (fun interest => matchCategory poi.category interest)
  then s3 + 30 else s3

/-- `scorePOIs` — annotate every POI with its score and estimated cost, then
sort descending by score (`(a, b) => b.score - a.score`, stable). -/
def scorePOIs (ctx : Ctx) (pois : List POI) (alloc : Alloc) : List ScoredPOI :=
  sortBy (fun a b => decide (b.score ≤ a.score))
    (pois.map (fun poi =>
      { toPOI := poi
        score := poiScore ctx alloc poi
        estimated_cost := estimatePOICost ctx poi }))

/-- The keyword-inferred per-person minimum spend of `filterEvents`: later
keyword groups override earlier ones. -/
def inferredMin (e : Event) : ℚ :=
  let title := jsLower e.title
  let desc := jsLower e.description
  let m1 : ℚ := if jsTest "market" title || jsTest "market" desc then 100 else 50
  let m2 : ℚ :=
    if jsTest "music" title || jsTest "fest" title || jsTest "concert" title ||
       jsTest "night" title || jsTest "music" desc || jsTest "fest" desc ||
       jsTest "concert" desc || jsTest "night" desc then 200 else m1
  if jsTest "cruise" title || jsTest "cruise" desc then 300 else m2

/-- `filterEvents` — keep future events and annotate each with
`estimated_cost = max(event.price || 0, inferredMin) * partySize`. -/
def filterEvents (ctx : Ctx) (now : JsDate) (events : List Event) : List ScoredEvent :=
  (events.filter (fun e => decide (now.ms < e.start_date.ms))).map (fun e =>
    let base := jsOr e.price 0
    let perPerson := max base (inferredMin e)
    { toEvent := e, estimated_cost := perPerson * ctx.partySize })

/-- `trafficSpeedKmph` — the time-of-day speed profile (km/h). -/
def trafficSpeedKmph (hour24 : ℕ) : ℚ :=
  if 22 ≤ hour24 ∨ hour24 ≤ 5 then 35
  else if (9 ≤ hour24 ∧ hour24 ≤ 11) ∨ (17 ≤ hour24 ∧ hour24 ≤ 20) then 20
  else 30

/-- The `parseInt((timeStr || '09:00').split(':')[0], 10)` hour; `none` is the
`NaN` outcome, under which every comparison in `trafficSpeedKmph` is false
and the speed falls through to 30. -/
def parseHour (timeStr : String) : Option ℕ :=
  let s := if timeStr == "" then "09:00" else timeStr
  ((s.splitOn ":").headD "").toNat?

/-- The result record of `estimateTravelMinutes`. -/
structure TravelInfo where
  minutes : ℚ
  distKm : ℚ
  speed : ℚ
deriving DecidableEq

/-- `estimateTravelMinutes` — `null` when either stop lacks coordinates,
otherwise distance by `hav`, a speed from the hour of `timeStr`, a 5-minute
floor, and the distance rounded to one decimal. -/
def estimateTravelMinutes (hav : HavFn) (fromC toC : Option (ℚ × ℚ))
    (timeStr : String) : Option TravelInfo :=
  match fromC, toC with
  | some f, some t =>
    let distKm := hav f t
    let speed := match parseHour timeStr with
      | some h => trafficSpeedKmph h
      | none => 30
    let minutes := max 5 (jsRound (distKm / speed * 60))
    some { minutes := minutes, distKm := jsRound (distKm * 10) / 10, speed := speed }
  | _, _ => none

/-- `getActivityNotes` — weather advice plus the free-activity note. -/
def getActivityNotes (activity : ScoredPOI) (weather : Weather) : String :=
  let notes : List String :=
    (if activity.category == "beach" && weather.condition == some "Rain" then
      ["Consider indoor alternatives due to rain"]
     else if activity.category == "outdoor" &&
         (match weather.temperature with | some t => decide (35 < t) | none => false) then
      ["Carry water and sun protection - high temperature"]
     else if activity.category == "beach" && weather.condition == some "Clear" then
      ["Perfect weather for beach activities"]
     else []) ++
    (if activity.estimated_cost == 0 then ["Free activity - great for budget"] else [])
  String.intercalate ". " notes

/-- `getDayWeatherRecommendation`; the first branch is the `!weather` guard
(never taken in the integrated flow, where the weather object always
exists). -/
def getDayWeatherRecommendation (weather : Option Weather) (_day : ℕ) : String :=
  match weather with
  | none => "Check local weather conditions"
  | some w =>
    if w.condition == some "Rain" then
      "Rainy day - focus on indoor activities and covered areas"
    else if (match w.temperature with | some t => decide (35 < t) | none => false) then
      "Hot day - plan early morning and evening activities"
    else "Good weather for outdoor activities"

/-- The travel annotation applied to `curr` from `prev` (the body of the
`for (let i = 1; …)` loop in `optimizeDayActivities`). Only the note text and
the two travel fields change; the underlying activity is untouched. -/
def applyTravel (hav : HavFn) (prev curr : Entry) : Entry :=
  match estimateTravelMinutes hav prev.activity.coords curr.activity.coords curr.time with
  | some travel =>
    let note := "Est. travel: " ++ toString travel.minutes ++ " min for ~" ++
      toString travel.distKm ++ " km (traffic-adjusted)"
    { curr with
      notes := if curr.notes == "" then note else curr.notes ++ ". " ++ note
      travel_time_min := some travel.minutes
      travel_dist_km := some travel.distKm }
  | none => curr

/-- The annotation loop over consecutive entries: each entry after the first
is annotated against its predecessor (whose coordinates the annotation does
not change). -/
def annotateFrom (hav : HavFn) (prev : Entry) : List Entry → List Entry
  | [] => []
  | curr :: rest =>
    let c := applyTravel hav prev curr
    c :: annotateFrom hav c rest

/-- `sorted` entries with inter-stop travel annotated (the loop of
`optimizeDayActivities` lines 613-628). -/
def annotateTravel (hav : HavFn) : List Entry → List Entry
  | [] => []
  | a :: rest => a :: annotateFrom hav a rest

/-- `optimizeDayActivities` — one morning POI passing the weather filter, the
second pool POI in the afternoon, every event of the day, sorted by time and
annotated with travel. The source reads the impact from `weather.impact`;
here the impact object is passed alongside the observation fields. -/
def optimizeDayActivities (hav : HavFn) (pois : List ScoredPOI)
    (events : List ScoredEvent) (weather : Weather) (impact : Impact) : List Entry :=
  let morningPois := pois.filter (fun poi =>
    !(impact.outdoor_activities == some "unfavorable") || poi.category == "indoor")
  let morning : List Entry :=
    match morningPois with
    | [] => []
    | p :: _ =>
      [{ time := "09:00", typ := "poi", activity := .poi p, duration := "3 hours"
         notes := getActivityNotes p weather }]
  let afternoon : List Entry :=
    match pois.get? 1 with
    | some p =>
      [{ time := "13:00", typ := "poi", activity := .poi p, duration := "4 hours"
         notes := getActivityNotes p weather }]
    | none => []
  let eventEntries : List Entry := events.map (fun e =>
    { time := e.start_date.timeHHMM, typ := "event", activity := .event e
      duration := "2-4 hours", notes := "Local event - " ++ e.description })
  let sorted := sortBy (fun a b => timeLe a.time b.time) (morning ++ afternoon ++ eventEntries)
  annotateTravel hav sorted

/-- `Math.ceil(a / b)` for natural `a`, `b ≥ 1`. -/
def jsCeilDiv (a b : ℕ) : ℕ := (a + b - 1) / b

/-- `selectedPois = pois.slice(0, Math.min(duration * 3, pois.length))`. -/
def selectedPoisOf (pois : List ScoredPOI) (duration : ℕ) : List ScoredPOI :=
  pois.take (min (duration * 3) pois.length)

/-- `poisPerDay = Math.ceil(selectedPois.length / duration)`. -/
def poisPerDayOf (pois : List ScoredPOI) (duration : ℕ) : ℕ :=
  jsCeilDiv (selectedPoisOf pois duration).length duration

/-- The POI slice of day `k+1`:
`selectedPois.slice((day-1)*poisPerDay, Math.min(day*poisPerDay, len))`. -/
def dayPoisOf (pois : List ScoredPOI) (duration k : ℕ) : List ScoredPOI :=
  let sel := selectedPoisOf pois duration
  let ppd := poisPerDayOf pois duration
  (sel.drop (k * ppd)).take (min ((k + 1) * ppd) sel.length - k * ppd)

/-- The events of day `k+1`:
`eventDate.getDate() === new Date().getDate() + day - 1`. -/
def dayEventsOf (events : List ScoredEvent) (now : JsDate) (k : ℕ) : List ScoredEvent :=
  events.filter (fun e => e.start_date.dayOfMonth == now.dayOfMonth + k)

/-- `dailyBudget = Math.round((budget * partySize) / Math.max(1, duration))`. -/
def dailyBudgetOf (ctx : Ctx) (duration : ℕ) : ℚ :=
  jsRound ((ctx.budget * ctx.partySize) / (max 1 duration : ℕ))

/-- `sum + poi.estimated_cost` over a day's POI slice. -/
def sumPoiCosts (pois : List ScoredPOI) : ℚ :=
  pois.foldl (fun sum poi => sum + poi.estimated_cost) 0

/-- `sum + event.estimated_cost` over a day's events. -/
def sumEventCosts (events : List ScoredEvent) : ℚ :=
  events.foldl (fun sum e => sum + e.estimated_cost) 0

/-- `sum + (a.travel_dist_km || 0)` over a day's activities. -/
def sumTravelKm (acts : List Entry) : ℚ :=
  acts.foldl (fun sum a => sum + a.travel_dist_km.getD 0) 0

/-- Total of `(act.activity.estimated_cost || 0)` over entries (used by the
per-day recomputation of `replaceCheaperOptions`). -/
def sumEntryCosts (acts : List Entry) : ℚ :=
  acts.foldl (fun sum a => sum + entryCost a) 0

/-- The per-day budget trim loop
`while (pruned.length > 1 && est > dailyBudget) { est -= cost(pruned.pop()) }`,
written on the reversed activity list (popping from the end is taking from
the head of the reverse). -/
def pruneRev (dB : ℚ) : List Entry → ℚ → List Entry × ℚ
  | [], est => ([], est)
  | [a], est => ([a], est)
  | a :: b :: rest, est =>
    if dB < est then pruneRev dB (b :: rest) (est - entryCost a)
    else (a :: b :: rest, est)

/-- Lines 548-557: trim trailing activities while the day is over its budget
and more than one activity remains. -/
def pruneDay (dB : ℚ) (acts : List Entry) (est : ℚ) : List Entry × ℚ :=
  if dB < est ∧ 1 < acts.length then
    let r := pruneRev dB acts.reverse est
    (r.1.reverse, r.2)
  else (acts, est)

/-- The day object built for day `k+1` of `generateDayWiseItinerary`. -/
def buildDay (ctx : Ctx) (hav : HavFn) (now : JsDate) (pois : List ScoredPOI)
    (events : List ScoredEvent) (duration : ℕ) (weather : Weather)
    (impact : Impact) (k : ℕ) : DayPlan :=
  let dayPois := dayPoisOf pois duration k
  let dayEvents := dayEventsOf events now k
  let activities := optimizeDayActivities hav dayPois dayEvents weather impact
  let transportCost := jsRound (sumTravelKm activities * 20)
  let dailyBudget := dailyBudgetOf ctx duration
  let baseCost := sumPoiCosts dayPois + sumEventCosts dayEvents + transportCost
  let pruned := pruneDay dailyBudget activities baseCost
  { day := k + 1
    activities := pruned.1
    estimated_cost := pruned.2
    transport_cost := transportCost
    weather_recommendation := getDayWeatherRecommendation (some weather) (k + 1) }

/-- `generateDayWiseItinerary` — the `for (let day = 1; day <= duration; …)`
loop, one day object per iteration. -/
def generateDayWiseItinerary (ctx : Ctx) (hav : HavFn) (now : JsDate)
    (pois : List ScoredPOI) (events : List ScoredEvent) (duration : ℕ)
    (weather : Weather) (impact : Impact) : List DayPlan :=
  (List.range duration).map (buildDay ctx hav now pois events duration weather impact)

/-- `calculateTotalCost` — the sum of the days' estimated costs. -/
def calculateTotalCost (itinerary : List DayPlan) : ℚ :=
  itinerary.foldl (fun total day => total + day.estimated_cost) 0

/-- The structural model of `JSON.parse(JSON.stringify(·))` on one entry. -/
def deepCopyEntry (a : Entry) : Entry :=
  { time := a.time, typ := a.typ
    activity := match a.activity with
      | .poi p => .poi { toPOI := { name := p.name, category := p.category
                                    price_range := p.price_range, rating := p.rating
                                    coords := p.coords }
                         score := p.score, estimated_cost := p.estimated_cost }
      | .event e => .event { toEvent := { title := e.title, description := e.description
                                          category := e.category, price := e.price
                                          start_date := e.start_date, coords := e.coords }
                             estimated_cost := e.estimated_cost }
    duration := a.duration, notes := a.notes
    travel_time_min := a.travel_time_min, travel_dist_km := a.travel_dist_km }

/-- The structural model of `JSON.parse(JSON.stringify(·))` on one day. -/
def deepCopyDay (d : DayPlan) : DayPlan :=
  { day := d.day, activities := d.activities.map deepCopyEntry
    estimated_cost := d.estimated_cost, transport_cost := d.transport_cost
    weather_recommendation := d.weather_recommendation }

/-- `JSON.parse(JSON.stringify(itinerary))` — the deep copy every strategy of
`createBudgetAlternative` starts from. -/
def deepCopyItinerary (itinerary : List DayPlan) : List DayPlan :=
  itinerary.map deepCopyDay

/-- The per-day step of `removeExpensiveActivities`: sort the activities by
cost descending and, when more than one remains, shift off the most
expensive, updating the day cost and the running total. -/
def removeStep (d : DayPlan) : DayPlan × ℚ :=
  let sorted := sortBy (fun a b => decide (entryCost b ≤ entryCost a)) d.activities
  match sorted with
  | r :: t :: ts =>
    ({ d with activities := t :: ts, estimated_cost := d.estimated_cost - entryCost r },
     entryCost r)
  | _ => ({ d with activities := sorted }, 0)

/-- The `for (let day of itinerary)` loop of `removeExpensiveActivities` with
its running `currentCost`; `break` leaves the remaining days untouched. -/
def removeExpensiveGo (budgetLimit : ℚ) : List DayPlan → ℚ → List DayPlan
  | [], _ => []
  | d :: rest, currentCost =>
    if currentCost ≤ budgetLimit then d :: rest
    else
      let s := removeStep d
      s.1 :: removeExpensiveGo budgetLimit rest (currentCost - s.2)

/-- `removeExpensiveActivities`. -/
def removeExpensiveActivities (itinerary : List DayPlan) (budgetLimit : ℚ) : List DayPlan :=
  removeExpensiveGo budgetLimit itinerary (calculateTotalCost itinerary)

/-- `replaceCheaperOptions` — 30% discount on every positive-cost activity,
then each day's `estimated_cost` recomputed as the sum of its activity
costs alone. -/
def replaceCheaperOptions (itinerary : List DayPlan) (_budgetLimit : ℚ) : List DayPlan :=
  itinerary.map (fun day =>
    let acts := day.activities.map (fun activity =>
      if 0 < activity.activity.cost then
        { activity with
          activity := activity.activity.withCost (activity.activity.cost * (7/10))
          notes := activity.notes ++ ". Switched to budget option" }
      else activity)
    { day with activities := acts, estimated_cost := sumEntryCosts acts })

/-- `createBudgetAlternative` — deep-copy the base plan, apply one strategy,
and report the savings against the base plan; `none` is the fall-through of
the `switch` for an unknown strategy. -/
def createBudgetAlternative (itinerary : List DayPlan) (budgetLimit : ℚ)
    (strategy : String) : Option Alternative :=
  let modified := deepCopyItinerary itinerary
  if strategy == "remove_expensive" then
    let m := removeExpensiveActivities modified budgetLimit
    some { typ := "remove_expensive"
           description := "Remove most expensive activities to fit budget"
           itinerary := m
           savings := calculateTotalCost itinerary - calculateTotalCost m }
  else if strategy == "replace_cheaper" then
    let m := replaceCheaperOptions modified budgetLimit
    some { typ := "replace_cheaper"
           description := "Replace activities with budget-friendly alternatives"
           itinerary := m
           savings := calculateTotalCost itinerary - calculateTotalCost m }
  else if strategy == "reduce_duration" then
    let m := modified.dropLast
    some { typ := "reduce_duration"
           description := "Reduce trip duration by one day"
           itinerary := m
           savings := calculateTotalCost itinerary - calculateTotalCost m }
  else none

/-- `generateBudgetAlternatives` — the three strategies in order, each pushed
when the call returns an alternative. -/
def generateBudgetAlternatives (itinerary : List DayPlan) (budgetLimit : ℚ) : List Alternative :=
  (createBudgetAlternative itinerary budgetLimit "remove_expensive").toList ++
  (createBudgetAlternative itinerary budgetLimit "replace_cheaper").toList ++
  (createBudgetAlternative itinerary budgetLimit "reduce_duration").toList

/-- `calculateOptimizationScore`; the `budgetLimit = 0` guard makes the
JavaScript `(totalCost - 0) / 0 = Infinity` outcome (a zero budget term)
explicit. -/
def calculateOptimizationScore (itinerary : List DayPlan) (totalCost budgetLimit : ℚ) : ℚ :=
  let budgetScore : ℚ :=
    if totalCost ≤ budgetLimit then 30
    else if budgetLimit = 0 then 0
    else max 0 (30 - (totalCost - budgetLimit) / budgetLimit * 30)
  let varietyScore : ℚ := min 25 (itinerary.length * 5)
  let preferenceScore : ℚ := 25
  let weatherScore : ℚ := 20
  jsRound (budgetScore + varietyScore + preferenceScore + weatherScore)

/-- `optimizeItinerary` — the pure core of the planning request: score the
pools, build the day-wise itinerary, check the budget and generate
alternatives when over. The weather observation is the external
collaborator's input (`getWeatherData`); the LLM day-tip enrichment only
adds an optional text field and is omitted. -/
def optimizeItinerary (ctx : Ctx) (hav : HavFn) (now : JsDate)
    (obs : Option Weather) (pois : List POI) (events : List Event)
    (duration : ℕ) : ItineraryResult :=
  let totalBudget := ctx.budget * ctx.partySize
  let budgetAllocation := getBudgetAllocation ctx
  let impact := assessWeatherImpact obs
  let weather := obs.getD { temperature := none, condition := none }
  let scoredPois := scorePOIs ctx pois budgetAllocation
  let relevantEvents := filterEvents ctx now events
  let itinerary := generateDayWiseItinerary ctx hav now scoredPois relevantEvents duration weather impact
  let totalCost := calculateTotalCost itinerary
  let budgetStatus := if totalCost ≤ totalBudget then "within_budget" else "over_budget"
  let alternatives :=
    if budgetStatus == "over_budget" then generateBudgetAlternatives itinerary totalBudget
    else []
  { itinerary := itinerary
    budget_status := budgetStatus
    total_cost := totalCost
    budget_limit := totalBudget
    alternatives := alternatives
    optimization_score := calculateOptimizationScore itinerary totalCost totalBudget }

/-! ### General lemmas about the embedding -/

theorem foldl_add_map (f : α → ℚ) (l : List α) (c : ℚ) :
    l.foldl (fun s a => s + f a) c = c + (l.map f).sum := by
  induction l generalizing c with
  | nil => simp
  | cons x xs ih => simp [ih, add_assoc]

theorem sumPoiCosts_eq (pois : List ScoredPOI) :
    sumPoiCosts pois = (pois.map (fun p => p.estimated_cost)).sum := by
  simpa using foldl_add_map (fun p : ScoredPOI => p.estimated_cost) pois 0

theorem sumEventCosts_eq (events : List ScoredEvent) :
    sumEventCosts events = (events.map (fun e => e.estimated_cost)).sum := by
  simpa using foldl_add_map (fun e : ScoredEvent => e.estimated_cost) events 0

theorem sumEntryCosts_eq (acts : List Entry) :
    sumEntryCosts acts = (acts.map entryCost).sum := by
  simpa using foldl_add_map entryCost acts 0

theorem calculateTotalCost_eq (it : List DayPlan) :
    calculateTotalCost it = (it.map (fun d => d.estimated_cost)).sum := by
  simpa using foldl_add_map (fun d : DayPlan => d.estimated_cost) it 0

theorem mem_insertBy {le : α → α → Bool} {x a : α} {l : List α} :
    a ∈ insertBy le x l ↔ a = x ∨ a ∈ l := by
  induction l with
  | nil => simp [insertBy]
  | cons y ys ih =>
    by_cases h : (le y x && !(le x y)) = true
    · simp only [insertBy, if_pos h, List.mem_cons, ih]
      tauto
    · simp only [insertBy, if_neg h, List.mem_cons]

theorem mem_sortBy {le : α → α → Bool} {a : α} {l : List α} :
    a ∈ sortBy le l ↔ a ∈ l := by
  induction l with
  | nil => simp [sortBy]
  | cons x xs ih => simp [sortBy, mem_insertBy, ih]

theorem countP_insertBy (p : α → Bool) (le : α → α → Bool) (x : α) (l : List α) :
    (insertBy le x l).countP p = l.countP p + (if p x then 1 else 0) := by
  induction l with
  | nil => simp [insertBy, List.countP_cons]
  | cons y ys ih =>
    by_cases h : (le y x && !(le x y)) = true
    · simp only [insertBy, if_pos h, List.countP_cons, ih]
      omega
    · simp only [insertBy, if_neg h, List.countP_cons]

theorem countP_sortBy (p : α → Bool) (le : α → α → Bool) (l : List α) :
    (sortBy le l).countP p = l.countP p := by
  induction l with
  | nil => rfl
  | cons x xs ih => simp [sortBy, countP_insertBy, ih, List.countP_cons]

theorem applyTravel_fields (hav : HavFn) (prev curr : Entry) :
    (applyTravel hav prev curr).typ = curr.typ ∧
    (applyTravel hav prev curr).activity = curr.activity := by
  unfold applyTravel
  cases estimateTravelMinutes hav prev.activity.coords curr.activity.coords curr.time <;> simp

theorem annotateFrom_map_pair (hav : HavFn) (prev : Entry) (l : List Entry) :
    (annotateFrom hav prev l).map (fun a => (a.typ, a.activity)) =
      l.map (fun a => (a.typ, a.activity)) := by
  induction l generalizing prev with
  | nil => rfl
  | cons c rest ih =>
    simp only [annotateFrom, List.map_cons, ih]
    have h := applyTravel_fields hav prev c
    simp [h.1, h.2]

theorem annotateTravel_map_pair (hav : HavFn) (l : List Entry) :
    (annotateTravel hav l).map (fun a => (a.typ, a.activity)) =
      l.map (fun a => (a.typ, a.activity)) := by
  cases l with
  | nil => rfl
  | cons a rest => simp [annotateTravel, annotateFrom_map_pair]

theorem annotateTravel_pair_mem {hav : HavFn} {l : List Entry} {a : Entry}
    (h : a ∈ annotateTravel hav l) : ∃ b ∈ l, b.typ = a.typ ∧ b.activity = a.activity := by
  have hm : (a.typ, a.activity) ∈ (annotateTravel hav l).map (fun a => (a.typ, a.activity)) :=
    List.mem_map_of_mem _ h
  rw [annotateTravel_map_pair] at hm
  rcases List.mem_map.mp hm with ⟨b, hb, hba⟩
  exact ⟨b, hb, congrArg Prod.fst hba, congrArg Prod.snd hba⟩

theorem pruneRev_fst_suffix (dB : ℚ) (l : List Entry) (est : ℚ) :
    (pruneRev dB l est).1 <:+ l := by
  induction l generalizing est with
  | nil => simp [pruneRev]
  | cons a rest ih =>
    cases rest with
    | nil => simp [pruneRev]
    | cons b rest2 =>
      by_cases h : dB < est
      · simp only [pruneRev, if_pos h]
        exact (ih (est - entryCost a)).trans (List.suffix_cons a (b :: rest2))
      · simp [pruneRev, if_neg h]

theorem pruneRev_snd_exists (dB : ℚ) (l : List Entry) (est : ℚ)
    (h : ∀ a ∈ l, 0 ≤ entryCost a) :
    ∃ s, 0 ≤ s ∧ (pruneRev dB l est).2 = est - s := by
  induction l generalizing est with
  | nil => exact ⟨0, le_refl 0, by simp [pruneRev]⟩
  | cons a rest ih =>
    cases rest with
    | nil => exact ⟨0, le_refl 0, by simp [pruneRev]⟩
    | cons b rest2 =>
      by_cases hd : dB < est
      · have ha : 0 ≤ entryCost a := h a (by simp)
        rcases ih (est - entryCost a) (fun x hx => h x (List.mem_cons_of_mem a hx)) with
          ⟨s, hs, heq⟩
        refine ⟨s + entryCost a, by positivity, ?_⟩
        simp only [pruneRev, if_pos hd, heq]
        ring
      · exact ⟨0, le_refl 0, by simp [pruneRev, if_neg hd]⟩

theorem pruneRev_post (dB : ℚ) (l : List Entry) (est : ℚ) :
    (pruneRev dB l est).2 ≤ dB ∨ (pruneRev dB l est).1.length ≤ 1 := by
  induction l generalizing est with
  | nil => right; simp [pruneRev]
  | cons a rest ih =>
    cases rest with
    | nil => right; simp [pruneRev]
    | cons b rest2 =>
      by_cases hd : dB < est
      · simp only [pruneRev, if_pos hd]
        exact ih (est - entryCost a)
      · left
        simp only [pruneRev, if_neg hd]
        exact le_of_not_lt hd

theorem pruneDay_fst_sublist (dB : ℚ) (acts : List Entry) (est : ℚ) :
    (pruneDay dB acts est).1.Sublist acts := by
  unfold pruneDay
  by_cases h : dB < est ∧ 1 < acts.length
  · simp only [if_pos h]
    have hs := pruneRev_fst_suffix dB acts.reverse est
    have : (pruneRev dB acts.reverse est).1.reverse <+: acts.reverse.reverse :=
      List.reverse_prefix.mpr (by simpa using hs)
    rw [List.reverse_reverse] at this
    exact this.sublist
  · simp only [if_neg h]
    exact List.Sublist.refl acts

theorem pruneDay_snd_exists (dB : ℚ) (acts : List Entry) (est : ℚ)
    (h : ∀ a ∈ acts, 0 ≤ entryCost a) :
    ∃ s, 0 ≤ s ∧ (pruneDay dB acts est).2 = est - s := by
  unfold pruneDay
  by_cases hc : dB < est ∧ 1 < acts.length
  · simp only [if_pos hc]
    exact pruneRev_snd_exists dB acts.reverse est (fun a ha => h a (List.mem_reverse.mp ha))
  · exact ⟨0, le_refl 0, by simp [if_neg hc]⟩

theorem pruneDay_post (dB : ℚ) (acts : List Entry) (est : ℚ) :
    (pruneDay dB acts est).2 ≤ dB ∨ (pruneDay dB acts est).1.length ≤ 1 := by
  unfold pruneDay
  by_cases hc : dB < est ∧ 1 < acts.length
  · simp only [if_pos hc]
    rcases pruneRev_post dB acts.reverse est with h | h
    · left; exact h
    · right; simpa using h
  · rcases not_and_or.mp hc with h | h
    · left
      simp only [if_neg hc]
      exact le_of_not_lt h
    · right
      simp only [if_neg hc]
      omega

theorem pruneDay_mem {dB : ℚ} {acts : List Entry} {est : ℚ} {a : Entry}
    (h : a ∈ (pruneDay dB acts est).1) : a ∈ acts :=
  (pruneDay_fst_sublist dB acts est).mem h

theorem catMins_nonneg (cat : String) : 0 ≤ catMins cat := by
  unfold catMins
  split_ifs <;> norm_num

theorem estimatePOICost_nonneg (ctx : Ctx) (poi : POI) : 0 ≤ estimatePOICost ctx poi := by
  unfold estimatePOICost
  have h : (0 : ℚ) ≤ max (jsRound (baseCosts poi.price_range * multipliers (jsLower poi.category)))
      (catMins (jsLower poi.category)) :=
    le_trans (catMins_nonneg _) (le_max_right _ _)
  exact mul_nonneg h (by positivity)

theorem inferredMin_ge (e : Event) : 50 ≤ inferredMin e := by
  unfold inferredMin
  dsimp only
  split_ifs <;> norm_num

theorem filterEvents_cost (ctx : Ctx) (now : JsDate) (events : List Event)
    (se : ScoredEvent) (h : se ∈ filterEvents ctx now events) : 0 ≤ se.estimated_cost := by
  unfold filterEvents at h
  rcases List.mem_map.mp h with ⟨e, _, rfl⟩
  have h50 : (50 : ℚ) ≤ max (jsOr e.price 0) (inferredMin e) :=
    le_trans (inferredMin_ge e) (le_max_right _ _)
  have : (0 : ℚ) ≤ max (jsOr e.price 0) (inferredMin e) := by linarith
  exact mul_nonneg this (by positivity)

theorem scorePOIs_cost (ctx : Ctx) (pois : List POI) (alloc : Alloc)
    (sp : ScoredPOI) (h : sp ∈ scorePOIs ctx pois alloc) : 0 ≤ sp.estimated_cost := by
  unfold scorePOIs at h
  rcases List.mem_map.mp (mem_sortBy.mp h) with ⟨p, _, rfl⟩
  exact estimatePOICost_nonneg ctx p

theorem optimizeDayActivities_entry_cost (hav : HavFn) (pois : List ScoredPOI)
    (events : List ScoredEvent) (weather : Weather) (impact : Impact)
    (hp : ∀ p ∈ pois, 0 ≤ p.estimated_cost) (he : ∀ e ∈ events, 0 ≤ e.estimated_cost) :
    ∀ a ∈ optimizeDayActivities hav pois events weather impact, 0 ≤ entryCost a := by
  intro a ha
  unfold optimizeDayActivities at ha
  rcases annotateTravel_pair_mem ha with ⟨b, hb, _, hact⟩
  have hb2 := mem_sortBy.mp hb
  unfold entryCost
  rw [← hact]
  rcases List.mem_append.mp hb2 with hb3 | hbe
  · rcases List.mem_append.mp hb3 with hbm | hba
    · revert hbm
      cases hF : pois.filter (fun poi =>
          !(impact.outdoor_activities == some "unfavorable") || poi.category == "indoor") with
      | nil => intro hbm; simp at hbm
      | cons p ps =>
        intro hbm
        have hpmem : p ∈ pois := by
          have : p ∈ pois.filter (fun poi =>
              !(impact.outdoor_activities == some "unfavorable") || poi.category == "indoor") := by
            rw [hF]; simp
          exact List.mem_of_mem_filter this
        simp only [List.mem_singleton] at hbm
        subst hbm
        exact hp p hpmem
    · revert hba
      cases hG : pois.get? 1 with
      | none => intro hba; simp at hba
      | some p =>
        intro hba
        simp only [List.mem_singleton] at hba
        subst hba
        exact hp p (List.get?_mem hG)
  · rcases List.mem_map.mp hbe with ⟨e, hemem, rfl⟩
    exact he e hemem

theorem optimizeDayActivities_poi_count (hav : HavFn) (pois : List ScoredPOI)
    (events : List ScoredEvent) (weather : Weather) (impact : Impact) :
    (optimizeDayActivities hav pois events weather impact).countP
      (fun a => a.typ == "poi") ≤ 2 := by
  unfold optimizeDayActivities
  have hmap : ∀ l : List Entry,
      l.countP (fun a => a.typ == "poi") =
        (l.map (fun a => (a.typ, a.activity))).countP (fun q => q.1 == "poi") := by
    intro l
    rw [List.countP_map]
    rfl
  rw [hmap, annotateTravel_map_pair, ← hmap, countP_sortBy]
  rw [List.countP_append, List.countP_append]
  have hev : (events.map (fun e =>
      ({ time := e.start_date.timeHHMM, typ := "event", activity := .event e
         duration := "2-4 hours", notes := "Local event - " ++ e.description } : Entry))).countP
        (fun a => a.typ == "poi") = 0 := by
    rw [List.countP_map]
    apply List.countP_eq_zero.mpr
    intro e _
    simp [Function.comp]
  have h1 : ∀ l : List ScoredPOI, (match l with
      | [] => ([] : List Entry)
      | p :: _ => [{ time := "09:00", typ := "poi", activity := .poi p, duration := "3 hours"
                     notes := getActivityNotes p weather }]).countP
        (fun a : Entry => a.typ == "poi") ≤ 1 := by
    intro l
    cases l <;> simp [List.countP_cons]
  have h2 : (match pois.get? 1 with
      | some p => [({ time := "13:00", typ := "poi", activity := .poi p, duration := "4 hours"
                      notes := getActivityNotes p weather } : Entry)]
      | none => ([] : List Entry)).countP (fun a : Entry => a.typ == "poi") ≤ 1 := by
    cases pois.get? 1 <;> simp [List.countP_cons]
  have := h1 (pois.filter (fun poi =>
    !(impact.outdoor_activities == some "unfavorable") || poi.category == "indoor"))
  omega

theorem buildDay_entry_cost (ctx : Ctx) (hav : HavFn) (now : JsDate)
    (pois : List ScoredPOI) (events : List ScoredEvent) (duration : ℕ)
    (weather : Weather) (impact : Impact) (k : ℕ)
    (hp : ∀ p ∈ pois, 0 ≤ p.estimated_cost) (he : ∀ e ∈ events, 0 ≤ e.estimated_cost) :
    ∀ a ∈ (buildDay ctx hav now pois events duration weather impact k).activities,
      0 ≤ entryCost a := by
  intro a ha
  unfold buildDay at ha
  dsimp only at ha
  have ha2 := pruneDay_mem ha
  refine optimizeDayActivities_entry_cost hav _ _ weather impact ?_ ?_ a ha2
  · intro p hpm
    refine hp p ?_
    unfold dayPoisOf at hpm
    exact List.mem_of_mem_take (List.mem_of_mem_drop
      (List.mem_of_mem_take (by simpa [selectedPoisOf] using hpm)))
  · intro e hem
    exact he e (List.mem_of_mem_filter hem)

theorem buildDay_est_decomp (ctx : Ctx) (hav : HavFn) (now : JsDate)
    (pois : List ScoredPOI) (events : List ScoredEvent) (duration : ℕ)
    (weather : Weather) (impact : Impact) (k : ℕ)
    (hp : ∀ p ∈ pois, 0 ≤ p.estimated_cost) (he : ∀ e ∈ events, 0 ≤ e.estimated_cost) :
    ∃ dropped, 0 ≤ dropped ∧
      (buildDay ctx hav now pois events duration weather impact k).estimated_cost =
        sumPoiCosts (dayPoisOf pois duration k) + sumEventCosts (dayEventsOf events now k) +
        (buildDay ctx hav now pois events duration weather impact k).transport_cost - dropped := by
  have hent := optimizeDayActivities_entry_cost hav (dayPoisOf pois duration k)
    (dayEventsOf events now k) weather impact
    (fun p hpm => hp p (by
      unfold dayPoisOf at hpm
      exact List.mem_of_mem_take (List.mem_of_mem_drop
        (List.mem_of_mem_take (by simpa [selectedPoisOf] using hpm)))))
    (fun e hem => he e (List.mem_of_mem_filter hem))
  unfold buildDay
  dsimp only
  exact pruneDay_snd_exists _ _ _ hent

theorem buildDay_day_budget (ctx : Ctx) (hav : HavFn) (now : JsDate)
    (pois : List ScoredPOI) (events : List ScoredEvent) (duration : ℕ)
    (weather : Weather) (impact : Impact) (k : ℕ) :
    (buildDay ctx hav now pois events duration weather impact k).estimated_cost ≤
        dailyBudgetOf ctx duration ∨
      (buildDay ctx hav now pois events duration weather impact k).activities.length ≤ 1 := by
  unfold buildDay
  dsimp only
  exact pruneDay_post _ _ _

theorem buildDay_poi_count (ctx : Ctx) (hav : HavFn) (now : JsDate)
    (pois : List ScoredPOI) (events : List ScoredEvent) (duration : ℕ)
    (weather : Weather) (impact : Impact) (k : ℕ) :
    ((buildDay ctx hav now pois events duration weather impact k).activities).countP
      (fun a => a.typ == "poi") ≤ 2 := by
  unfold buildDay
  dsimp only
  have hsub := pruneDay_fst_sublist (dailyBudgetOf ctx duration)
    (optimizeDayActivities hav (dayPoisOf pois duration k) (dayEventsOf events now k)
      weather impact)
    (sumPoiCosts (dayPoisOf pois duration k) + sumEventCosts (dayEventsOf events now k) +
      jsRound (sumTravelKm (optimizeDayActivities hav (dayPoisOf pois duration k)
        (dayEventsOf events now k) weather impact) * 20))
  exact le_trans (hsub.countP_le _) (optimizeDayActivities_poi_count hav _ _ weather impact)

theorem generateDayWiseItinerary_length (ctx : Ctx) (hav : HavFn) (now : JsDate)
    (pois : List ScoredPOI) (events : List ScoredEvent) (duration : ℕ)
    (weather : Weather) (impact : Impact) :
    (generateDayWiseItinerary ctx hav now pois events duration weather impact).length =
      duration := by
  unfold generateDayWiseItinerary
  simp

theorem mem_generateDayWiseItinerary {ctx : Ctx} {hav : HavFn} {now : JsDate}
    {pois : List ScoredPOI} {events : List ScoredEvent} {duration : ℕ}
    {weather : Weather} {impact : Impact} {d : DayPlan}
    (h : d ∈ generateDayWiseItinerary ctx hav now pois events duration weather impact) :
    ∃ k, k < duration ∧ d = buildDay ctx hav now pois events duration weather impact k := by
  unfold generateDayWiseItinerary at h
  rcases List.mem_map.mp h with ⟨k, hk, rfl⟩
  exact ⟨k, List.mem_range.mp hk, rfl⟩

theorem itinerary_entry_cost (ctx : Ctx) (hav : HavFn) (now : JsDate)
    (pois : List ScoredPOI) (events : List ScoredEvent) (duration : ℕ)
    (weather : Weather) (impact : Impact)
    (hp : ∀ p ∈ pois, 0 ≤ p.estimated_cost) (he : ∀ e ∈ events, 0 ≤ e.estimated_cost) :
    ∀ d ∈ generateDayWiseItinerary ctx hav now pois events duration weather impact,
      ∀ a ∈ d.activities, 0 ≤ entryCost a := by
  intro d hd
  rcases mem_generateDayWiseItinerary hd with ⟨k, _, rfl⟩
  exact buildDay_entry_cost ctx hav now pois events duration weather impact k hp he

theorem deepCopyEntry_id (a : Entry) : deepCopyEntry a = a := by
  rcases a with ⟨t, ty, act, du, no, tm, td⟩
  rcases act with p | e
  · rcases p with ⟨⟨n, c, pr, r, co⟩, s, ec⟩
    rfl
  · rcases e with ⟨⟨ti, de, c, pr, sd, co⟩, ec⟩
    rfl

theorem deepCopyDay_id (d : DayPlan) : deepCopyDay d = d := by
  rcases d with ⟨dy, acts, ec, tc, wr⟩
  unfold deepCopyDay
  simp only [show deepCopyEntry = id from funext deepCopyEntry_id, List.map_id]

theorem deepCopyItinerary_id (it : List DayPlan) : deepCopyItinerary it = it := by
  unfold deepCopyItinerary
  simp only [show deepCopyDay = id from funext deepCopyDay_id, List.map_id]

theorem removeStep_spec (d : DayPlan) (hd : ∀ a ∈ d.activities, 0 ≤ entryCost a) :
    0 ≤ (removeStep d).2 ∧
      (removeStep d).1.estimated_cost = d.estimated_cost - (removeStep d).2 := by
  unfold removeStep
  dsimp only
  cases hs : sortBy (fun a b => decide (entryCost b ≤ entryCost a)) d.activities with
  | nil => simp
  | cons r t =>
    cases t with
    | nil => simp
    | cons t2 ts =>
      have hr : r ∈ d.activities := by
        have : r ∈ sortBy (fun a b => decide (entryCost b ≤ entryCost a)) d.activities := by
          rw [hs]; simp
        exact mem_sortBy.mp this
      exact ⟨hd r hr, by simp⟩

theorem removeExpensiveGo_le (budgetLimit : ℚ) (days : List DayPlan) (cur : ℚ)
    (h : ∀ d ∈ days, ∀ a ∈ d.activities, 0 ≤ entryCost a) :
    calculateTotalCost (removeExpensiveGo budgetLimit days cur) ≤ calculateTotalCost days := by
  induction days generalizing cur with
  | nil => simp [removeExpensiveGo]
  | cons d rest ih =>
    by_cases hc : cur ≤ budgetLimit
    · simp [removeExpensiveGo, if_pos hc]
    · have hstep := removeStep_spec d (h d (by simp))
      have hrest := ih (cur - (removeStep d).2) (fun x hx a ha => h x (by simp [hx]) a ha)
      simp only [removeExpensiveGo, if_neg hc]
      rw [calculateTotalCost_eq, calculateTotalCost_eq] at *
      simp only [List.map_cons, List.sum_cons]
      rw [hstep.2]
      have := hstep.1
      linarith

theorem generateBudgetAlternatives_eq (it : List DayPlan) (budgetLimit : ℚ) :
    generateBudgetAlternatives it budgetLimit =
      [{ typ := "remove_expensive"
         description := "Remove most expensive activities to fit budget"
         itinerary := removeExpensiveActivities (deepCopyItinerary it) budgetLimit
         savings := calculateTotalCost it -
           calculateTotalCost (removeExpensiveActivities (deepCopyItinerary it) budgetLimit) },
       { typ := "replace_cheaper"
         description := "Replace activities with budget-friendly alternatives"
         itinerary := replaceCheaperOptions (deepCopyItinerary it) budgetLimit
         savings := calculateTotalCost it -
           calculateTotalCost (replaceCheaperOptions (deepCopyItinerary it) budgetLimit) },
       { typ := "reduce_duration"
         description := "Reduce trip duration by one day"
         itinerary := (deepCopyItinerary it).dropLast
         savings := calculateTotalCost it -
           calculateTotalCost ((deepCopyItinerary it).dropLast) }] := by
  rfl

/-! ### Spec-side definitions for the amended claims (each written from the
amended wording, to be compared with the source-side definition). -/

/-- Modelled from the spec (amended wording of C5): the score of a candidate
is the plain sum of the budget-fit band bonus, the trip-archetype affinity,
rating (defaulted to 4.0) times 8, and an interest-match bonus of 30 when an
interest tag maps to the category — with no penalty on a miss and no
identity-derived tie-break term. -/
def scoreSpecAmended (ctx : Ctx) (alloc : Alloc) (poi : POI) : ℚ :=
  let activityBudget := ctx.budget * ctx.partySize * alloc.activities
  let estimatedCost := estimatePOICost ctx poi
  let bandBonus : ℚ :=
    if estimatedCost ≤ activityBudget * (3/10) then 35
    else if estimatedCost ≤ activityBudget * (5/10) then 22
    else if estimatedCost ≤ activityBudget * (7/10) then 12
    else 0
  let affinity := getTripTypeScore poi ctx.tripType
  let ratingTerm := jsOr poi.rating 4 * 8
  let interestBonus : ℚ :=
    if ctx.interests.any (fun interest => matchCategory poi.category interest) then 30 else 0
  bandBonus + affinity + ratingTerm + interestBonus

/-- Modelled from the spec (amended wording of C7): the per-person charge of
a kept event is the explicit price (0 when absent) floored by the
keyword-inferred minimum, scaled by party size — the floor applies to every
event, not only to those lacking a price. -/
def eventCostSpecAmended (ctx : Ctx) (e : Event) : ℚ :=
  max (jsOr e.price 0) (inferredMin e) * ctx.partySize

/-- Modelled from the spec (amended wording of C8): rain makes outdoor and
beach unfavorable and indoor favorable; otherwise heat above 35 °C makes
outdoor moderate and beach favorable with the indoor label left unset;
otherwise — including a missing observation — outdoor and beach are
favorable and the indoor label is left unset. -/
def impactSpecAmended (w : Option Weather) : Impact :=
  let isRain := match w with | some ob => ob.condition == some "Rain" | none => false
  let isHot := match w with
    | some ob => (match ob.temperature with | some t => decide (35 < t) | none => false)
    | none => false
  if isRain then
    { outdoor_activities := some "unfavorable", beach_activities := some "unfavorable"
      indoor_activities := some "favorable" }
  else if isHot then
    { outdoor_activities := some "moderate", beach_activities := some "favorable"
      indoor_activities := none }
  else
    { outdoor_activities := some "favorable", beach_activities := some "favorable"
      indoor_activities := none }

/-! ### Claim C5 -/

/-- Input for the C5 counterexample: two candidates identical in every scored
component, distinct in identity. -/
def c5ctx : Ctx := { budget := 5000, partySize := 1, tripType := "solo", interests := [] }

/-- First C5 candidate. -/
def c5poiA : POI :=
  { name := "Alpha Beach", category := "beach", price_range := "budget"
    rating := some 4, coords := none }

/-- Second C5 candidate: differs from the first only in its identity. -/
def c5poiB : POI :=
  { name := "Beta Beach", category := "beach", price_range := "budget"
    rating := some 4, coords := none }

/-- C5, counterexample: the claim says two candidates that tie on every other
component are still deterministically ordered by a hash of their identity
(implying an identity-derived score term); in the code two candidates that
differ only in identity receive exactly the same score, so no such term
exists. -/
theorem c5_counterexample :
    (scorePOIs c5ctx [c5poiA, c5poiB] (getBudgetAllocation c5ctx)).map
        (fun p => p.score) = [77, 77] ∧
      c5poiA.name ≠ c5poiB.name := by
  have hcostA : estimatePOICost c5ctx c5poiA = 200 := by
    norm_num [estimatePOICost, c5ctx, c5poiA, jsRound,
      show multipliers (jsLower "beach") = 8/10 from rfl,
      show baseCosts "budget" = 250 from rfl,
      show catMins (jsLower "beach") = 150 from rfl]
  have hcostB : estimatePOICost c5ctx c5poiB = 200 := by
    norm_num [estimatePOICost, c5ctx, c5poiB, jsRound,
      show multipliers (jsLower "beach") = 8/10 from rfl,
      show baseCosts "budget" = 250 from rfl,
      show catMins (jsLower "beach") = 150 from rfl]
  have hsA : poiScore c5ctx (getBudgetAllocation c5ctx) c5poiA = 77 := by
    norm_num [poiScore, hcostA, jsOr,
      show (getBudgetAllocation c5ctx).activities = 4/10 from rfl,
      show getTripTypeScore c5poiA "solo" = 10 from rfl,
      show c5ctx.budget = 5000 from rfl, show c5ctx.partySize = 1 from rfl,
      show c5ctx.tripType = "solo" from rfl, show c5ctx.interests = [] from rfl,
      show c5poiA.rating = some 4 from rfl]
  have hsB : poiScore c5ctx (getBudgetAllocation c5ctx) c5poiB = 77 := by
    norm_num [poiScore, hcostB, jsOr,
      show (getBudgetAllocation c5ctx).activities = 4/10 from rfl,
      show getTripTypeScore c5poiB "solo" = 10 from rfl,
      show c5ctx.budget = 5000 from rfl, show c5ctx.partySize = 1 from rfl,
      show c5ctx.tripType = "solo" from rfl, show c5ctx.interests = [] from rfl,
      show c5poiB.rating = some 4 from rfl]
  constructor
  · show (scorePOIs c5ctx [c5poiA, c5poiB] (getBudgetAllocation c5ctx)).map
        (fun p => p.score) = [77, 77]
    simp only [scorePOIs, List.map_cons, List.map_nil, hsA, hsB, hcostA, hcostB,
      sortBy, insertBy]
    norm_num
  · decide

/-- C5, amended: the scorer's score is the sum of the budget-fit band bonus,
the trip-archetype affinity, rating×8 and a 30-point interest-match bonus —
with no penalty term on an interest miss and no identity-hash tie-break
term; in particular the score depends only on category, price tier and
rating, never on the candidate's identity, and the output is the stable
descending sort of the annotated candidates. -/
theorem c5_score_formula (ctx : Ctx) (alloc : Alloc) (pois : List POI) :
    scorePOIs ctx pois alloc =
      sortBy (fun a b => decide (b.score ≤ a.score))
        (pois.map (fun poi =>
          { toPOI := poi
            score := scoreSpecAmended ctx alloc poi
            estimated_cost := estimatePOICost ctx poi })) ∧
    ∀ p q : POI, p.category = q.category → p.price_range = q.price_range →
      p.rating = q.rating → poiScore ctx alloc p = poiScore ctx alloc q := by
  constructor
  · unfold scorePOIs
    congr 1
    apply List.map_congr_left
    intro poi _
    have : poiScore ctx alloc poi = scoreSpecAmended ctx alloc poi := by
      unfold poiScore scoreSpecAmended
      dsimp only
      split_ifs <;> ring
    rw [this]
  · intro p q hc hpr hr
    rcases p with ⟨pn, pc, pp, prt, pco⟩
    rcases q with ⟨qn, qc, qp, qrt, qco⟩
    simp only at hc hpr hr
    subst hc; subst hpr; subst hr
    unfold poiScore estimatePOICost getTripTypeScore
    rfl

/-- C5, witness for the amended theorem at a concrete input: the formula
refinement on a one-candidate pool, and identity-independence applied to the
two candidates that differ only in name. -/
theorem c5_score_formula_witness :
    scorePOIs c5ctx [c5poiA] (getBudgetAllocation c5ctx) =
        sortBy (fun a b => decide (b.score ≤ a.score))
          ([c5poiA].map (fun poi =>
            { toPOI := poi
              score := scoreSpecAmended c5ctx (getBudgetAllocation c5ctx) poi
              estimated_cost := estimatePOICost c5ctx poi })) ∧
      poiScore c5ctx (getBudgetAllocation c5ctx) c5poiA =
        poiScore c5ctx (getBudgetAllocation c5ctx) c5poiB := by
  refine ⟨(c5_score_formula c5ctx (getBudgetAllocation c5ctx) [c5poiA]).1, ?_⟩
  exact (c5_score_formula c5ctx (getBudgetAllocation c5ctx) []).2 c5poiA c5poiB rfl rfl rfl

/-! ### Claim C6 -/

/-- C6: for a fixed POI (price tier and category fixed), the derived
estimated cost is the party size times the single-person cost, and it is
non-negative. -/
theorem c6_cost_party_linear (ctx : Ctx) (poi : POI) (h : 1 ≤ ctx.partySize) :
    estimatePOICost ctx poi =
        (ctx.partySize : ℚ) * estimatePOICost { ctx with partySize := 1 } poi ∧
      0 ≤ estimatePOICost ctx poi := by
  refine ⟨?_, estimatePOICost_nonneg ctx poi⟩
  unfold estimatePOICost
  dsimp only
  push_cast
  ring

/-- C6, witness: the linear scaling evaluated for a party of three. -/
theorem c6_cost_party_linear_witness :
    1 ≤ (3 : ℕ) ∧
      (estimatePOICost { budget := 5000, partySize := 3, tripType := "family", interests := [] }
          c5poiA =
        (3 : ℚ) * estimatePOICost
          { budget := 5000, partySize := 1, tripType := "family", interests := [] } c5poiA ∧
       0 ≤ estimatePOICost
          { budget := 5000, partySize := 3, tripType := "family", interests := [] } c5poiA) :=
  ⟨by norm_num,
   c6_cost_party_linear
     { budget := 5000, partySize := 3, tripType := "family", interests := [] } c5poiA
     (by norm_num)⟩

/-! ### Claim C7 -/

/-- Input for the C7 counterexample: a future event with an explicit price of
30 whose title carries the keyword `cruise` (floor 300). -/
def c7event : Event :=
  { title := "Sunset cruise", description := "", category := "entertainment"
    price := some 30, start_date := { ms := 1000, dayOfMonth := 12, timeHHMM := "18:00" }
    coords := none }

/-- The context for the C7 counterexample. -/
def c7ctx : Ctx := { budget := 5000, partySize := 1, tripType := "solo", interests := [] }

/-- The reference time for the C7 counterexample. -/
def c7now : JsDate := { ms := 0, dayOfMonth := 10, timeHHMM := "00:00" }

/-- C7, counterexample: the claim says an event with an explicit price gets
`estimated_cost = price × party size` and the keyword floor applies only to
events lacking a price; the code floors every event, so this priced cruise
event (price 30, party 1) is charged 300, not 30. -/
theorem c7_counterexample :
    ((filterEvents c7ctx c7now [c7event]).map (fun se => se.estimated_cost)) = [300] ∧
      jsOr c7event.price 0 * c7ctx.partySize = 30 ∧ (300 : ℚ) ≠ 30 := by
  refine ⟨?_, ?_, by norm_num⟩
  · norm_num [filterEvents, inferredMin, c7ctx, c7now, c7event, jsOr,
      show jsTest "cruise" (jsLower "Sunset cruise") = true from by decide,
      show jsTest "market" (jsLower "Sunset cruise") = false from by decide,
      show jsTest "market" (jsLower "") = false from by decide,
      show jsTest "music" (jsLower "Sunset cruise") = false from by decide,
      show jsTest "fest" (jsLower "Sunset cruise") = false from by decide,
      show jsTest "concert" (jsLower "Sunset cruise") = false from by decide,
      show jsTest "night" (jsLower "Sunset cruise") = false from by decide,
      show jsTest "music" (jsLower "") = false from by decide,
      show jsTest "fest" (jsLower "") = false from by decide,
      show jsTest "concert" (jsLower "") = false from by decide,
      show jsTest "night" (jsLower "") = false from by decide,
      show jsTest "cruise" (jsLower "") = false from by decide]
  · norm_num [c7event, c7ctx, jsOr]

/-- C7, amended: the keyword-inferred minimum spend is applied to every kept
(future) event as a floor on the explicit price: `estimated_cost =
max(price || 0, inferredMin) × party size`; only when the explicit price
already reaches the floor does `estimated_cost` equal price × party size. -/
theorem c7_event_floor (ctx : Ctx) (now : JsDate) (events : List Event)
    (se : ScoredEvent) (h : se ∈ filterEvents ctx now events) :
    se.estimated_cost = eventCostSpecAmended ctx se.toEvent ∧
      now.ms < se.start_date.ms ∧
      (inferredMin se.toEvent ≤ jsOr se.price 0 →
        se.estimated_cost = jsOr se.price 0 * ctx.partySize) := by
  unfold filterEvents at h
  rcases List.mem_map.mp h with ⟨e, hmem, rfl⟩
  refine ⟨rfl, ?_, ?_⟩
  · have := List.of_mem_filter hmem
    simpa using this
  · intro hle
    dsimp only at hle ⊢
    unfold jsOr at hle ⊢
    rw [max_eq_left hle]

/-- C7, witness: the floor theorem applied to the concrete cruise event. -/
theorem c7_event_floor_witness :
    ((filterEvents c7ctx c7now [c7event]).headD
          { toEvent := c7event, estimated_cost := 0 }).estimated_cost =
        eventCostSpecAmended c7ctx
          ((filterEvents c7ctx c7now [c7event]).headD
            { toEvent := c7event, estimated_cost := 0 }).toEvent := by
  have hmem : (filterEvents c7ctx c7now [c7event]).headD
      { toEvent := c7event, estimated_cost := 0 } ∈ filterEvents c7ctx c7now [c7event] := by
    have : filterEvents c7ctx c7now [c7event] =
        [{ toEvent := c7event, estimated_cost := max (jsOr c7event.price 0)
            (inferredMin c7event) * c7ctx.partySize }] := by
      unfold filterEvents
      norm_num [c7now, c7event]
    rw [this]
    simp
  exact (c7_event_floor c7ctx c7now [c7event] _ hmem).1

/-! ### Claim C8 -/

/-- C8, counterexample: the claim says that outside the rain and heat
branches every label — outdoor, beach and indoor — is favorable; in the code
the `indoor_activities` key is assigned only in the rain branch, so for a
clear 28 °C observation it is absent, not favorable. -/
theorem c8_counterexample :
    (assessWeatherImpact (some { temperature := some 28, condition := some "Clear" })
        ).indoor_activities = none ∧
      (none : Option String) ≠ some "favorable" := by
  constructor
  · norm_num [assessWeatherImpact, show (("Clear" : String) = "Rain") = False from by
      simp only [eq_iff_iff, iff_false]
      decide]
  · simp

/-- C8, amended: the weather impact assessment is the total rule table —
rain sets outdoor and beach unfavorable and indoor favorable; otherwise heat
above 35 °C sets outdoor moderate and beach favorable with indoor left
unset; otherwise, and for a missing observation, outdoor and beach are
favorable with indoor left unset. It never fails. -/
theorem c8_impact_table (w : Option Weather) :
    assessWeatherImpact w = impactSpecAmended w := by
  unfold assessWeatherImpact impactSpecAmended
  cases w with
  | none => rfl
  | some ob => dsimp only

/-! ### Claim C3 -/

/-- C3: for every requested duration ≥ 1 the scheduler returns exactly
`duration` day plans, numbered 1..duration in order, and an empty candidate
and event pool still yields those days with zero activities rather than a
failure. -/
theorem c3_day_count (ctx : Ctx) (hav : HavFn) (now : JsDate)
    (pois : List ScoredPOI) (events : List ScoredEvent) (duration : ℕ)
    (weather : Weather) (impact : Impact) (hdur : 1 ≤ duration) :
    (generateDayWiseItinerary ctx hav now pois events duration weather impact).length =
        duration ∧
      (∀ k (hk : k <
          (generateDayWiseItinerary ctx hav now pois events duration weather impact).length),
        ((generateDayWiseItinerary ctx hav now pois events duration weather impact).get
          ⟨k, hk⟩).day = k + 1) ∧
      (pois = [] → events = [] →
        ∀ d ∈ generateDayWiseItinerary ctx hav now pois events duration weather impact,
          d.activities = []) := by
  refine ⟨generateDayWiseItinerary_length ctx hav now pois events duration weather impact,
    ?_, ?_⟩
  · intro k hk
    unfold generateDayWiseItinerary at hk ⊢
    simp only [List.get_eq_getElem, List.getElem_map, List.getElem_range]
    rfl
  · rintro rfl rfl d hd
    rcases mem_generateDayWiseItinerary hd with ⟨k, _, rfl⟩
    unfold buildDay dayPoisOf selectedPoisOf dayEventsOf
    simp [optimizeDayActivities, sortBy, annotateTravel, pruneDay]

/-- C3, witness: two requested days from empty pools give exactly the day
plans 1 and 2, each with no activities. -/
theorem c3_day_count_witness :
    1 ≤ 2 ∧
      (generateDayWiseItinerary ⟨5000, 1, "solo", []⟩ (fun _ _ => 0) ⟨0, 10, "00:00"⟩
          [] [] 2 ⟨some 28, some "Clear"⟩
          (assessWeatherImpact (some ⟨some 28, some "Clear"⟩))).length = 2 := by
  refine ⟨by norm_num, ?_⟩
  exact (c3_day_count _ _ _ [] [] 2 _ _ (by norm_num)).1

/-! ### Claim C2 -/

/-- Context for the C2 and C4 concrete scenarios. -/
def c2ctx : Ctx := { budget := 5000, partySize := 1, tripType := "solo", interests := [] }

/-- The clear-sky observation used in the concrete scenarios. -/
def c2weather : Weather := { temperature := some 28, condition := some "Clear" }

/-- The reference time for the concrete scenarios. -/
def c2now : JsDate := { ms := 0, dayOfMonth := 10, timeHHMM := "00:00" }

/-- The trivial distance function for the concrete scenarios. -/
def hav0 : HavFn := fun _ _ => 0

/-- A scored beach POI of cost 100, first candidate. -/
def c2poi1 : ScoredPOI :=
  { toPOI := { name := "P1", category := "beach", price_range := "budget",
               rating := some 4, coords := none },
    score := 50, estimated_cost := 100 }

/-- A scored beach POI of cost 100, second candidate. -/
def c2poi2 : ScoredPOI :=
  { toPOI := { name := "P2", category := "beach", price_range := "budget",
               rating := some 4, coords := none },
    score := 49, estimated_cost := 100 }

/-- A scored beach POI of cost 100, third candidate. -/
def c2poi3 : ScoredPOI :=
  { toPOI := { name := "P3", category := "beach", price_range := "budget",
               rating := some 4, coords := none },
    score := 48, estimated_cost := 100 }

/-- The default day used to read off the head of a generated itinerary. -/
def dayDefault : DayPlan :=
  { day := 0, activities := [], estimated_cost := 0, transport_cost := 0
    weather_recommendation := "" }

/-- The single generated day of the C2 scenario: three candidate POIs are
assigned to the day (and billed), but only two become activity entries. -/
theorem c2_scenario_day :
    generateDayWiseItinerary c2ctx hav0 c2now [c2poi1, c2poi2, c2poi3] [] 1 c2weather
        (assessWeatherImpact (some c2weather)) =
      [{ day := 1
         activities :=
           [{ time := "09:00", typ := "poi", activity := .poi c2poi1, duration := "3 hours"
              notes := "Perfect weather for beach activities" },
            { time := "13:00", typ := "poi", activity := .poi c2poi2, duration := "4 hours"
              notes := "Perfect weather for beach activities" }]
         estimated_cost := 300
         transport_cost := 0
         weather_recommendation := "Good weather for outdoor activities" }] := by
  norm_num [generateDayWiseItinerary, buildDay, dayPoisOf, selectedPoisOf, poisPerDayOf,
    jsCeilDiv, dayEventsOf, optimizeDayActivities, getActivityNotes, sortBy, insertBy,
    annotateTravel, annotateFrom, applyTravel, estimateTravelMinutes, sumTravelKm,
    sumPoiCosts, sumEventCosts, jsRound, dailyBudgetOf, pruneDay, pruneRev,
    getDayWeatherRecommendation, entryCost, ActSource.cost,
    ActSource.coords, c2ctx, c2weather, c2now, c2poi1, c2poi2, c2poi3, hav0,
    List.range_succ, List.range_zero,
    show assessWeatherImpact (some c2weather) =
      { outdoor_activities := some "favorable", beach_activities := some "favorable",
        indoor_activities := none } from rfl,
    show timeLe "13:00" "09:00" = false from by decide,
    show timeLe "09:00" "13:00" = true from by decide,
    show (("Clear" : String) = "Rain") = False from by
      simp only [eq_iff_iff, iff_false]
      decide,
    show String.intercalate ". " ["Perfect weather for beach activities"] =
      "Perfect weather for beach activities" from by decide]

/-- A low budget for the zero-activity half of the C2 counterexample. -/
def c2bctx : Ctx := { budget := 100, partySize := 1, tripType := "solo", interests := [] }

/-- Rainy observation for the zero-activity half of the C2 counterexample. -/
def c2rain : Weather := { temperature := some 25, condition := some "Rain" }

/-- A single expensive outdoor candidate: on a rainy day it is billed but
never scheduled. -/
def c2bpoi : ScoredPOI :=
  { toPOI := { name := "Z", category := "beach", price_range := "luxury",
               rating := some 4, coords := none },
    score := 50, estimated_cost := 1120 }

/-- The single generated day of the zero-activity C2 scenario: the one
candidate is excluded from the morning slot by the rain filter, no afternoon
slot exists, yet its 1120 cost is billed — and with no second activity the
budget trim cannot run. -/
theorem c2_scenario_rain_day :
    generateDayWiseItinerary c2bctx hav0 c2now [c2bpoi] [] 1 c2rain
        (assessWeatherImpact (some c2rain)) =
      [{ day := 1
         activities := []
         estimated_cost := 1120
         transport_cost := 0
         weather_recommendation :=
           "Rainy day - focus on indoor activities and covered areas" }] := by
  norm_num [generateDayWiseItinerary, buildDay, dayPoisOf, selectedPoisOf, poisPerDayOf,
    jsCeilDiv, dayEventsOf, optimizeDayActivities, getActivityNotes, sortBy, insertBy,
    annotateTravel, annotateFrom, applyTravel, estimateTravelMinutes, sumTravelKm,
    sumPoiCosts, sumEventCosts, jsRound, dailyBudgetOf, pruneDay, pruneRev,
    getDayWeatherRecommendation, entryCost, ActSource.cost,
    ActSource.coords, c2bctx, c2rain, c2now, c2bpoi, hav0,
    List.range_succ, List.range_zero,
    show assessWeatherImpact (some c2rain) =
      { outdoor_activities := some "unfavorable", beach_activities := some "unfavorable",
        indoor_activities := some "favorable" } from rfl,
    show (("beach" : String) = "indoor") = False from by
      simp only [eq_iff_iff, iff_false]
      decide]

/-- C2, counterexample: the claim says every day's estimated cost equals the
sum of its activity entries' costs plus its transport cost, and exceeds the
day budget only when the day has exactly one activity. In the first
generated day three POIs are billed (300) while only two appear as entries
(200 plus zero transport), so the equation fails; and the rainy-day scenario
yields a day with zero activities whose cost 1120 exceeds its day budget
100, so the "exactly one activity" exception fails as well. -/
theorem c2_counterexample :
    (((generateDayWiseItinerary c2ctx hav0 c2now [c2poi1, c2poi2, c2poi3] [] 1 c2weather
          (assessWeatherImpact (some c2weather))).headD dayDefault).estimated_cost = 300 ∧
      sumEntryCosts ((generateDayWiseItinerary c2ctx hav0 c2now [c2poi1, c2poi2, c2poi3] []
            1 c2weather (assessWeatherImpact (some c2weather))).headD dayDefault).activities +
          ((generateDayWiseItinerary c2ctx hav0 c2now [c2poi1, c2poi2, c2poi3] [] 1 c2weather
            (assessWeatherImpact (some c2weather))).headD dayDefault).transport_cost = 200 ∧
      (300 : ℚ) ≠ 200) ∧
    (((generateDayWiseItinerary c2bctx hav0 c2now [c2bpoi] [] 1 c2rain
          (assessWeatherImpact (some c2rain))).headD dayDefault).activities.length = 0 ∧
      dailyBudgetOf c2bctx 1 <
        ((generateDayWiseItinerary c2bctx hav0 c2now [c2bpoi] [] 1 c2rain
          (assessWeatherImpact (some c2rain))).headD dayDefault).estimated_cost) := by
  constructor
  · rw [c2_scenario_day]
    refine ⟨rfl, ?_, by norm_num⟩
    norm_num [sumEntryCosts, entryCost, ActSource.cost, c2poi1, c2poi2]
  · rw [c2_scenario_rain_day]
    refine ⟨rfl, ?_⟩
    norm_num [dailyBudgetOf, jsRound, c2bctx]

/-- C2, amended: each day's estimated cost is the cost of its assigned POI
slice plus its assigned events plus its transport cost, less the
non-negative total trimmed by the per-day budget loop (so it need not equal
the sum of its activity entries); and the per-day budget cap holds with "at
most one" in place of "exactly one": the cost exceeds the day budget only if
at most one activity remains. -/
theorem c2_day_cost (ctx : Ctx) (hav : HavFn) (now : JsDate)
    (pois : List ScoredPOI) (events : List ScoredEvent) (duration : ℕ)
    (weather : Weather) (impact : Impact)
    (hp : ∀ p ∈ pois, 0 ≤ p.estimated_cost) (he : ∀ e ∈ events, 0 ≤ e.estimated_cost) :
    ∀ d ∈ generateDayWiseItinerary ctx hav now pois events duration weather impact,
      ∃ k, k < duration ∧
        (∃ dropped, 0 ≤ dropped ∧
          d.estimated_cost = sumPoiCosts (dayPoisOf pois duration k) +
            sumEventCosts (dayEventsOf events now k) + d.transport_cost - dropped) ∧
        (d.estimated_cost ≤ dailyBudgetOf ctx duration ∨ d.activities.length ≤ 1) := by
  intro d hd
  rcases mem_generateDayWiseItinerary hd with ⟨k, hk, rfl⟩
  exact ⟨k, hk,
    buildDay_est_decomp ctx hav now pois events duration weather impact k hp he,
    buildDay_day_budget ctx hav now pois events duration weather impact k⟩

/-- C2, witness: the amended decomposition applied to the concrete
three-candidate day. -/
theorem c2_day_cost_witness :
    ∃ k, k < 1 ∧
      (∃ dropped, 0 ≤ dropped ∧
        ((generateDayWiseItinerary c2ctx hav0 c2now [c2poi1, c2poi2, c2poi3] [] 1 c2weather
            (assessWeatherImpact (some c2weather))).headD dayDefault).estimated_cost =
          sumPoiCosts (dayPoisOf [c2poi1, c2poi2, c2poi3] 1 k) +
            sumEventCosts (dayEventsOf [] c2now k) +
            ((generateDayWiseItinerary c2ctx hav0 c2now [c2poi1, c2poi2, c2poi3] [] 1
              c2weather (assessWeatherImpact (some c2weather))).headD
                dayDefault).transport_cost - dropped) ∧
      (((generateDayWiseItinerary c2ctx hav0 c2now [c2poi1, c2poi2, c2poi3] [] 1 c2weather
            (assessWeatherImpact (some c2weather))).headD dayDefault).estimated_cost ≤
          dailyBudgetOf c2ctx 1 ∨
        ((generateDayWiseItinerary c2ctx hav0 c2now [c2poi1, c2poi2, c2poi3] [] 1 c2weather
          (assessWeatherImpact (some c2weather))).headD dayDefault).activities.length ≤ 1) := by
  have hp : ∀ p ∈ [c2poi1, c2poi2, c2poi3], 0 ≤ p.estimated_cost := by
    intro p hp
    rcases List.mem_cons.mp hp with rfl | hp
    · norm_num [c2poi1]
    rcases List.mem_cons.mp hp with rfl | hp
    · norm_num [c2poi2]
    rcases List.mem_cons.mp hp with rfl | hp
    · norm_num [c2poi3]
    · simp at hp
  have hmem : (generateDayWiseItinerary c2ctx hav0 c2now [c2poi1, c2poi2, c2poi3] [] 1
      c2weather (assessWeatherImpact (some c2weather))).headD dayDefault ∈
      generateDayWiseItinerary c2ctx hav0 c2now [c2poi1, c2poi2, c2poi3] [] 1 c2weather
        (assessWeatherImpact (some c2weather)) := by
    rw [c2_scenario_day]
    simp
  exact c2_day_cost c2ctx hav0 c2now [c2poi1, c2poi2, c2poi3] [] 1 c2weather
    (assessWeatherImpact (some c2weather)) hp (by simp) _ hmem

/-! ### Claim C4 -/

/-- A scored beach event for the C4 scenario (its date matches day 1). -/
def c4event : ScoredEvent :=
  { toEvent := { title := "Beach Party", description := "", category := "beach",
                 price := some 0,
                 start_date := { ms := 500, dayOfMonth := 10, timeHHMM := "20:00" },
                 coords := none },
    estimated_cost := 100 }

/-- The single generated day of the C4 scenario: two beach POIs and one
beach event all land on day 1. -/
theorem c4_scenario_day :
    generateDayWiseItinerary c2ctx hav0 c2now [c2poi1, c2poi2] [c4event] 1 c2weather
        (assessWeatherImpact (some c2weather)) =
      [{ day := 1
         activities :=
           [{ time := "09:00", typ := "poi", activity := .poi c2poi1, duration := "3 hours"
              notes := "Perfect weather for beach activities" },
            { time := "13:00", typ := "poi", activity := .poi c2poi2, duration := "4 hours"
              notes := "Perfect weather for beach activities" },
            { time := "20:00", typ := "event", activity := .event c4event
              duration := "2-4 hours", notes := "Local event - " }]
         estimated_cost := 300
         transport_cost := 0
         weather_recommendation := "Good weather for outdoor activities" }] := by
  norm_num [generateDayWiseItinerary, buildDay, dayPoisOf, selectedPoisOf, poisPerDayOf,
    jsCeilDiv, dayEventsOf, optimizeDayActivities, getActivityNotes, sortBy, insertBy,
    annotateTravel, annotateFrom, applyTravel, estimateTravelMinutes, sumTravelKm,
    sumPoiCosts, sumEventCosts, jsRound, dailyBudgetOf, pruneDay, pruneRev,
    getDayWeatherRecommendation, entryCost, ActSource.cost,
    ActSource.coords, c2ctx, c2weather, c2now, c2poi1, c2poi2, c4event, hav0,
    List.range_succ, List.range_zero,
    show assessWeatherImpact (some c2weather) =
      { outdoor_activities := some "favorable", beach_activities := some "favorable",
        indoor_activities := none } from rfl,
    show timeLe "13:00" "09:00" = false from by decide,
    show timeLe "09:00" "13:00" = true from by decide,
    show timeLe "20:00" "09:00" = false from by decide,
    show timeLe "20:00" "13:00" = false from by decide,
    show timeLe "09:00" "20:00" = true from by decide,
    show timeLe "13:00" "20:00" = true from by decide,
    show (("Clear" : String) = "Rain") = False from by
      simp only [eq_iff_iff, iff_false]
      decide,
    show String.intercalate ". " ["Perfect weather for beach activities"] =
      "Perfect weather for beach activities" from by decide]

/-- C4, counterexample: the claim says no day plan holds more than two
activities of one category; the generated day holds three entries whose
underlying category is `beach` (two POIs and one event) — the code enforces
no per-category cap. -/
theorem c4_counterexample :
    (((generateDayWiseItinerary c2ctx hav0 c2now [c2poi1, c2poi2] [c4event] 1 c2weather
          (assessWeatherImpact (some c2weather))).headD dayDefault).activities.countP
        (fun a => a.activity.category == "beach")) = 3 ∧ 2 < 3 := by
  rw [c4_scenario_day]
  refine ⟨?_, by norm_num⟩
  norm_num [List.countP_cons, ActSource.category, c2poi1, c2poi2, c4event]

/-- C4, amended: what the code does enforce is structural — a day plan never
holds more than two POI-typed activity entries (one morning and one
afternoon slot); event entries carry no per-category cap, so a category can
appear more than twice. -/
theorem c4_poi_cap (ctx : Ctx) (hav : HavFn) (now : JsDate)
    (pois : List ScoredPOI) (events : List ScoredEvent) (duration : ℕ)
    (weather : Weather) (impact : Impact) :
    ∀ d ∈ generateDayWiseItinerary ctx hav now pois events duration weather impact,
      d.activities.countP (fun a => a.typ == "poi") ≤ 2 := by
  intro d hd
  rcases mem_generateDayWiseItinerary hd with ⟨k, _, rfl⟩
  exact buildDay_poi_count ctx hav now pois events duration weather impact k

/-- C4, witness: the POI cap read off the concrete three-entry day. -/
theorem c4_poi_cap_witness :
    ((generateDayWiseItinerary c2ctx hav0 c2now [c2poi1, c2poi2] [c4event] 1 c2weather
        (assessWeatherImpact (some c2weather))).headD dayDefault).activities.countP
      (fun a => a.typ == "poi") ≤ 2 := by
  have hmem : (generateDayWiseItinerary c2ctx hav0 c2now [c2poi1, c2poi2] [c4event] 1
      c2weather (assessWeatherImpact (some c2weather))).headD dayDefault ∈
      generateDayWiseItinerary c2ctx hav0 c2now [c2poi1, c2poi2] [c4event] 1 c2weather
        (assessWeatherImpact (some c2weather)) := by
    rw [c4_scenario_day]
    simp
  exact c4_poi_cap c2ctx hav0 c2now [c2poi1, c2poi2] [c4event] 1 c2weather
    (assessWeatherImpact (some c2weather)) _ hmem

/-! ### Claim C9 -/

/-- C9: generating budget alternatives does not modify the base itinerary —
each of the three strategies is computed on its own deep copy of the base
day-plan list (never chained on another strategy's output), the deep copy is
the identity on the itinerary value, and the planning result's `itinerary`
is the scheduler's output untouched by alternative generation, so the base
days' activities, estimated costs and transport costs are unchanged. -/
theorem c9_alternatives_frame (it : List DayPlan) (budgetLimit : ℚ) :
    generateBudgetAlternatives it budgetLimit =
      [{ typ := "remove_expensive"
         description := "Remove most expensive activities to fit budget"
         itinerary := removeExpensiveActivities (deepCopyItinerary it) budgetLimit
         savings := calculateTotalCost it -
           calculateTotalCost (removeExpensiveActivities (deepCopyItinerary it) budgetLimit) },
       { typ := "replace_cheaper"
         description := "Replace activities with budget-friendly alternatives"
         itinerary := replaceCheaperOptions (deepCopyItinerary it) budgetLimit
         savings := calculateTotalCost it -
           calculateTotalCost (replaceCheaperOptions (deepCopyItinerary it) budgetLimit) },
       { typ := "reduce_duration"
         description := "Reduce trip duration by one day"
         itinerary := (deepCopyItinerary it).dropLast
         savings := calculateTotalCost it -
           calculateTotalCost ((deepCopyItinerary it).dropLast) }] ∧
      deepCopyItinerary it = it ∧
      ∀ (ctx : Ctx) (hav : HavFn) (now : JsDate) (obs : Option Weather)
        (pois : List POI) (events : List Event) (duration : ℕ),
        (optimizeItinerary ctx hav now obs pois events duration).itinerary =
          generateDayWiseItinerary ctx hav now
            (scorePOIs ctx pois (getBudgetAllocation ctx)) (filterEvents ctx now events)
            duration (obs.getD { temperature := none, condition := none })
            (assessWeatherImpact obs) :=
  ⟨generateBudgetAlternatives_eq it budgetLimit, deepCopyItinerary_id it,
   fun _ _ _ _ _ _ _ => rfl⟩

/-! ### Claim C10 -/

/-- A scheduler-built day with `t` more transport: transport enters such a
day's `estimated_cost` additively, so both fields shift together. -/
def addTransport (t : ℚ) (d : DayPlan) : DayPlan :=
  { d with transport_cost := d.transport_cost + t, estimated_cost := d.estimated_cost + t }

/-- C10: after the `replace_cheaper` strategy every modified day's
`estimated_cost` is exactly the sum of its own activity entries' (discounted)
costs — the day's transport cost and any billed candidate without an entry
are dropped from the recomputation (first conjunct); the recomputed total is
invariant under the base days' transport costs (second conjunct); and
therefore raising every day's transport by `t` raises the strategy's
reported savings by the full `t` per day even though no travel is removed
(third conjunct). -/
theorem c10_replace_cheaper_recompute (it : List DayPlan) (budgetLimit t : ℚ) :
    (∀ d ∈ replaceCheaperOptions it budgetLimit,
        d.estimated_cost = sumEntryCosts d.activities) ∧
      calculateTotalCost (replaceCheaperOptions (it.map (addTransport t)) budgetLimit) =
        calculateTotalCost (replaceCheaperOptions it budgetLimit) ∧
      calculateTotalCost (it.map (addTransport t)) -
          calculateTotalCost (replaceCheaperOptions (it.map (addTransport t)) budgetLimit) =
        calculateTotalCost it - calculateTotalCost (replaceCheaperOptions it budgetLimit) +
          t * it.length := by
  have htot : calculateTotalCost (it.map (addTransport t)) =
      calculateTotalCost it + t * it.length := by
    rw [calculateTotalCost_eq, calculateTotalCost_eq, List.map_map]
    induction it with
    | nil => simp
    | cons d rest ih =>
      simp only [List.map_cons, List.sum_cons, List.length_cons]
      rw [ih]
      have hd : ((fun x : DayPlan => x.estimated_cost) ∘ addTransport t) d =
          d.estimated_cost + t := rfl
      rw [hd]
      push_cast
      ring
  have hinv : calculateTotalCost (replaceCheaperOptions (it.map (addTransport t)) budgetLimit) =
      calculateTotalCost (replaceCheaperOptions it budgetLimit) := by
    unfold replaceCheaperOptions
    rw [calculateTotalCost_eq, calculateTotalCost_eq, List.map_map, List.map_map,
      List.map_map]
    rfl
  refine ⟨?_, hinv, by rw [hinv, htot]; ring⟩
  intro d hd
  unfold replaceCheaperOptions at hd
  rcases List.mem_map.mp hd with ⟨d0, _, rfl⟩
  rfl

/-- One-day itinerary for the C10 witness: one 100-cost entry, transport 50,
day total 150. -/
def c10day : DayPlan :=
  { day := 1
    activities :=
      [{ time := "09:00", typ := "poi", activity := .poi c2poi1, duration := "3 hours"
         notes := "" }]
    estimated_cost := 150
    transport_cost := 50
    weather_recommendation := "" }

/-- C10, witness: on the one-day itinerary the recomputed day total is the
discounted entry cost 70 (transport 50 dropped), and the savings identity is
evaluated. -/
theorem c10_replace_cheaper_recompute_witness :
    ((replaceCheaperOptions [c10day] 400).headD dayDefault).estimated_cost =
        sumEntryCosts ((replaceCheaperOptions [c10day] 400).headD dayDefault).activities ∧
      ((replaceCheaperOptions [c10day] 400).headD dayDefault).estimated_cost = 70 := by
  have hmem : (replaceCheaperOptions [c10day] 400).headD dayDefault ∈
      replaceCheaperOptions [c10day] 400 := by
    unfold replaceCheaperOptions
    simp
  refine ⟨(c10_replace_cheaper_recompute [c10day] 400 0).1 _ hmem, ?_⟩
  norm_num [replaceCheaperOptions, c10day, sumEntryCosts, entryCost, ActSource.cost,
    ActSource.withCost, c2poi1, dayDefault]

/-! ### Claim C1 -/

/-- C1 (amended): for every planning request, a total cost within the total
budget yields status `within_budget` and no alternatives; a total cost over
the budget yields status `over_budget` and exactly 3 alternatives, each of
whose savings equals the base total cost minus that alternative's total
cost; the first (`remove_expensive`) alternative's savings is always ≥ 0,
but the other two strategies' savings can be negative (see the
counterexample). -/
theorem c1_budget_alternatives (ctx : Ctx) (hav : HavFn) (now : JsDate)
    (obs : Option Weather) (pois : List POI) (events : List Event) (duration : ℕ) :
    ((optimizeItinerary ctx hav now obs pois events duration).total_cost ≤
        (optimizeItinerary ctx hav now obs pois events duration).budget_limit →
      (optimizeItinerary ctx hav now obs pois events duration).budget_status =
          "within_budget" ∧
        (optimizeItinerary ctx hav now obs pois events duration).alternatives = []) ∧
    ((optimizeItinerary ctx hav now obs pois events duration).budget_limit <
        (optimizeItinerary ctx hav now obs pois events duration).total_cost →
      (optimizeItinerary ctx hav now obs pois events duration).budget_status =
          "over_budget" ∧
        (optimizeItinerary ctx hav now obs pois events duration).alternatives.length = 3 ∧
        (∀ alt ∈ (optimizeItinerary ctx hav now obs pois events duration).alternatives,
          alt.savings =
            (optimizeItinerary ctx hav now obs pois events duration).total_cost -
              calculateTotalCost alt.itinerary) ∧
        0 ≤ ((optimizeItinerary ctx hav now obs pois events duration).alternatives.headD
          { typ := "", description := "", itinerary := [], savings := 0 }).savings) := by
  have hlim : (optimizeItinerary ctx hav now obs pois events duration).budget_limit =
      ctx.budget * ctx.partySize := rfl
  have htc : (optimizeItinerary ctx hav now obs pois events duration).total_cost =
      calculateTotalCost (generateDayWiseItinerary ctx hav now
        (scorePOIs ctx pois (getBudgetAllocation ctx)) (filterEvents ctx now events)
        duration (obs.getD { temperature := none, condition := none })
        (assessWeatherImpact obs)) := rfl
  constructor
  · intro h
    rw [htc, hlim] at h
    constructor
    · show (if calculateTotalCost (generateDayWiseItinerary ctx hav now
          (scorePOIs ctx pois (getBudgetAllocation ctx)) (filterEvents ctx now events)
          duration (obs.getD { temperature := none, condition := none })
          (assessWeatherImpact obs)) ≤ ctx.budget * ctx.partySize
          then "within_budget" else "over_budget") = "within_budget"
      rw [if_pos h]
    · show (if (if calculateTotalCost (generateDayWiseItinerary ctx hav now
          (scorePOIs ctx pois (getBudgetAllocation ctx)) (filterEvents ctx now events)
          duration (obs.getD { temperature := none, condition := none })
          (assessWeatherImpact obs)) ≤ ctx.budget * ctx.partySize
          then "within_budget" else "over_budget") == "over_budget"
          then generateBudgetAlternatives (generateDayWiseItinerary ctx hav now
            (scorePOIs ctx pois (getBudgetAllocation ctx)) (filterEvents ctx now events)
            duration (obs.getD { temperature := none, condition := none })
            (assessWeatherImpact obs)) (ctx.budget * ctx.partySize) else []) = []
      rw [if_pos h]
      simp
  · intro h
    rw [htc, hlim] at h
    have hnle := not_le.mpr h
    have hstat : (optimizeItinerary ctx hav now obs pois events duration).budget_status =
        "over_budget" := by
      show (if calculateTotalCost (generateDayWiseItinerary ctx hav now
          (scorePOIs ctx pois (getBudgetAllocation ctx)) (filterEvents ctx now events)
          duration (obs.getD { temperature := none, condition := none })
          (assessWeatherImpact obs)) ≤ ctx.budget * ctx.partySize
          then "within_budget" else "over_budget") = "over_budget"
      rw [if_neg hnle]
    have halts : (optimizeItinerary ctx hav now obs pois events duration).alternatives =
        generateBudgetAlternatives (generateDayWiseItinerary ctx hav now
          (scorePOIs ctx pois (getBudgetAllocation ctx)) (filterEvents ctx now events)
          duration (obs.getD { temperature := none, condition := none })
          (assessWeatherImpact obs)) (ctx.budget * ctx.partySize) := by
      show (if (if calculateTotalCost (generateDayWiseItinerary ctx hav now
          (scorePOIs ctx pois (getBudgetAllocation ctx)) (filterEvents ctx now events)
          duration (obs.getD { temperature := none, condition := none })
          (assessWeatherImpact obs)) ≤ ctx.budget * ctx.partySize
          then "within_budget" else "over_budget") == "over_budget"
          then generateBudgetAlternatives (generateDayWiseItinerary ctx hav now
            (scorePOIs ctx pois (getBudgetAllocation ctx)) (filterEvents ctx now events)
            duration (obs.getD { temperature := none, condition := none })
            (assessWeatherImpact obs)) (ctx.budget * ctx.partySize) else []) = _
      rw [if_neg hnle]
      simp
    refine ⟨hstat, ?_, ?_, ?_⟩
    · rw [halts, generateBudgetAlternatives_eq]
      rfl
    · intro alt halt
      rw [halts, generateBudgetAlternatives_eq] at halt
      rw [htc]
      rcases List.mem_cons.mp halt with rfl | halt
      · rw [deepCopyItinerary_id]
      rcases List.mem_cons.mp halt with rfl | halt
      · rw [deepCopyItinerary_id]
      rcases List.mem_cons.mp halt with rfl | halt
      · rw [deepCopyItinerary_id]
      · simp at halt
    · rw [halts, generateBudgetAlternatives_eq]
      simp only [List.headD_cons]
      rw [deepCopyItinerary_id]
      have hnon : ∀ d ∈ generateDayWiseItinerary ctx hav now
          (scorePOIs ctx pois (getBudgetAllocation ctx)) (filterEvents ctx now events)
          duration (obs.getD { temperature := none, condition := none })
          (assessWeatherImpact obs), ∀ a ∈ d.activities, 0 ≤ entryCost a :=
        itinerary_entry_cost ctx hav now _ _ duration _ _
          (fun p hp => scorePOIs_cost ctx pois (getBudgetAllocation ctx) p hp)
          (fun e he => filterEvents_cost ctx now events e he)
      have := removeExpensiveGo_le (ctx.budget * ctx.partySize)
        (generateDayWiseItinerary ctx hav now
          (scorePOIs ctx pois (getBudgetAllocation ctx)) (filterEvents ctx now events)
          duration (obs.getD { temperature := none, condition := none })
          (assessWeatherImpact obs))
        (calculateTotalCost (generateDayWiseItinerary ctx hav now
          (scorePOIs ctx pois (getBudgetAllocation ctx)) (filterEvents ctx now events)
          duration (obs.getD { temperature := none, condition := none })
          (assessWeatherImpact obs))) hnon
      unfold removeExpensiveActivities
      linarith

/-- C1, witness: the within-budget side of the amended theorem on an empty
request (total cost 0, limit 100). -/
theorem c1_budget_alternatives_witness :
    (optimizeItinerary ⟨100, 1, "solo", []⟩ hav0 ⟨0, 10, "00:00"⟩ none [] [] 0).total_cost ≤
        (optimizeItinerary ⟨100, 1, "solo", []⟩ hav0 ⟨0, 10, "00:00"⟩ none [] []
          0).budget_limit ∧
      (optimizeItinerary ⟨100, 1, "solo", []⟩ hav0 ⟨0, 10, "00:00"⟩ none [] []
          0).budget_status = "within_budget" ∧
      (optimizeItinerary ⟨100, 1, "solo", []⟩ hav0 ⟨0, 10, "00:00"⟩ none [] []
          0).alternatives = [] := by
  have h : (optimizeItinerary ⟨100, 1, "solo", []⟩ hav0 ⟨0, 10, "00:00"⟩ none [] []
      0).total_cost ≤
      (optimizeItinerary ⟨100, 1, "solo", []⟩ hav0 ⟨0, 10, "00:00"⟩ none [] []
        0).budget_limit := by
    show (0 : ℚ) ≤ (100 : ℚ) * ((1 : ℕ) : ℚ)
    norm_num
  exact ⟨h, (c1_budget_alternatives ⟨100, 1, "solo", []⟩ hav0 ⟨0, 10, "00:00"⟩ none [] [] 0).1 h⟩

/-- Context for the C1 counterexample: ₹400 per person, party of 1, solo. -/
def c1ctx : Ctx := { budget := 400, partySize := 1, tripType := "solo", interests := [] }

/-- Rainy observation for the C1 counterexample. -/
def c1obs : Weather := { temperature := some 25, condition := some "Rain" }

/-- Reference time for the C1 counterexample. -/
def c1now : JsDate := { ms := 0, dayOfMonth := 10, timeHHMM := "00:00" }

/-- C1 counterexample POI: expensive beach candidate, rating 5. -/
def c1poiX1 : POI :=
  { name := "X1", category := "beach", price_range := "luxury", rating := some 5
    coords := none }

/-- C1 counterexample POI: expensive beach candidate, rating 4.9. -/
def c1poiX2 : POI :=
  { name := "X2", category := "beach", price_range := "luxury", rating := some (49/10)
    coords := none }

/-- C1 counterexample POI: cheap beach candidate, rating 4.8. -/
def c1poiA : POI :=
  { name := "A", category := "beach", price_range := "budget", rating := some (24/5)
    coords := none }

/-- C1 counterexample POI: expensive indoor candidate, rating 4.7. -/
def c1poiB : POI :=
  { name := "B", category := "indoor", price_range := "luxury", rating := some (47/10)
    coords := none }

/-- C1 counterexample event: a cheap early-morning event on day 2. -/
def c1event : Event :=
  { title := "x", description := "", category := "", price := none
    start_date := { ms := 1000, dayOfMonth := 11, timeHHMM := "07:00" }, coords := none }

/-- `c1poiX1` as scored by the optimizer. -/
def c1sX1 : ScoredPOI := { toPOI := c1poiX1, score := 50, estimated_cost := 1120 }

/-- `c1poiX2` as scored by the optimizer. -/
def c1sX2 : ScoredPOI := { toPOI := c1poiX2, score := 246/5, estimated_cost := 1120 }

/-- `c1poiA` as scored by the optimizer. -/
def c1sA : ScoredPOI := { toPOI := c1poiA, score := 242/5, estimated_cost := 200 }

/-- `c1poiB` as scored by the optimizer. -/
def c1sB : ScoredPOI := { toPOI := c1poiB, score := 213/5, estimated_cost := 1400 }

/-- `c1event` as annotated by `filterEvents`. -/
def c1sE : ScoredEvent := { toEvent := c1event, estimated_cost := 50 }

/-- Day 1 of the C1 counterexample: both billed POIs miss the morning slot
(rain, not indoor), one fills the afternoon, so the day keeps one activity
and its full 2240 cost. -/
def c1day1 : DayPlan :=
  { day := 1
    activities :=
      [{ time := "13:00", typ := "poi", activity := .poi c1sX2, duration := "4 hours"
         notes := "Consider indoor alternatives due to rain" }]
    estimated_cost := 2240
    transport_cost := 0
    weather_recommendation := "Rainy day - focus on indoor activities and covered areas" }

/-- Day 2 of the C1 counterexample: the indoor POI fills both slots, the
budget trim pops both slots (each popping the POI's full 1400), driving the
day's estimated cost to −1150 with only the 50-cost event left. -/
def c1day2 : DayPlan :=
  { day := 2
    activities :=
      [{ time := "07:00", typ := "event", activity := .event c1sE, duration := "2-4 hours"
         notes := "Local event - " }]
    estimated_cost := -1150
    transport_cost := 0
    weather_recommendation := "Rainy day - focus on indoor activities and covered areas" }

/-- The default alternative used to read off an element of the list. -/
def altDefault : Alternative := { typ := "", description := "", itinerary := [], savings := 0 }

/-- Scoring of the four C1 candidates. -/
theorem c1_scored :
    scorePOIs c1ctx [c1poiX1, c1poiX2, c1poiA, c1poiB] (getBudgetAllocation c1ctx) =
      [c1sX1, c1sX2, c1sA, c1sB] := by
  have hcX1 : estimatePOICost c1ctx c1poiX1 = 1120 := by
    norm_num [estimatePOICost, c1ctx, c1poiX1, jsRound,
      show multipliers (jsLower "beach") = 8/10 from rfl,
      show baseCosts "luxury" = 1400 from rfl,
      show catMins (jsLower "beach") = 150 from rfl]
  have hcX2 : estimatePOICost c1ctx c1poiX2 = 1120 := by
    norm_num [estimatePOICost, c1ctx, c1poiX2, jsRound,
      show multipliers (jsLower "beach") = 8/10 from rfl,
      show baseCosts "luxury" = 1400 from rfl,
      show catMins (jsLower "beach") = 150 from rfl]
  have hcA : estimatePOICost c1ctx c1poiA = 200 := by
    norm_num [estimatePOICost, c1ctx, c1poiA, jsRound,
      show multipliers (jsLower "beach") = 8/10 from rfl,
      show baseCosts "budget" = 250 from rfl,
      show catMins (jsLower "beach") = 150 from rfl]
  have hcB : estimatePOICost c1ctx c1poiB = 1400 := by
    norm_num [estimatePOICost, c1ctx, c1poiB, jsRound,
      show multipliers (jsLower "indoor") = 1 from rfl,
      show baseCosts "luxury" = 1400 from rfl,
      show catMins (jsLower "indoor") = 100 from rfl]
  have hsX1 : poiScore c1ctx (getBudgetAllocation c1ctx) c1poiX1 = 50 := by
    norm_num [poiScore, hcX1, jsOr,
      show (getBudgetAllocation c1ctx).activities = 4/10 from rfl,
      show getTripTypeScore c1poiX1 "solo" = 10 from rfl,
      show c1ctx.budget = 400 from rfl, show c1ctx.partySize = 1 from rfl,
      show c1ctx.tripType = "solo" from rfl, show c1ctx.interests = [] from rfl,
      show c1poiX1.rating = some 5 from rfl]
  have hsX2 : poiScore c1ctx (getBudgetAllocation c1ctx) c1poiX2 = 246/5 := by
    norm_num [poiScore, hcX2, jsOr,
      show (getBudgetAllocation c1ctx).activities = 4/10 from rfl,
      show getTripTypeScore c1poiX2 "solo" = 10 from rfl,
      show c1ctx.budget = 400 from rfl, show c1ctx.partySize = 1 from rfl,
      show c1ctx.tripType = "solo" from rfl, show c1ctx.interests = [] from rfl,
      show c1poiX2.rating = some (49/10) from rfl]
  have hsA : poiScore c1ctx (getBudgetAllocation c1ctx) c1poiA = 242/5 := by
    norm_num [poiScore, hcA, jsOr,
      show (getBudgetAllocation c1ctx).activities = 4/10 from rfl,
      show getTripTypeScore c1poiA "solo" = 10 from rfl,
      show c1ctx.budget = 400 from rfl, show c1ctx.partySize = 1 from rfl,
      show c1ctx.tripType = "solo" from rfl, show c1ctx.interests = [] from rfl,
      show c1poiA.rating = some (24/5) from rfl]
  have hsB : poiScore c1ctx (getBudgetAllocation c1ctx) c1poiB = 213/5 := by
    norm_num [poiScore, hcB, jsOr,
      show (getBudgetAllocation c1ctx).activities = 4/10 from rfl,
      show getTripTypeScore c1poiB "solo" = 5 from rfl,
      show c1ctx.budget = 400 from rfl, show c1ctx.partySize = 1 from rfl,
      show c1ctx.tripType = "solo" from rfl, show c1ctx.interests = [] from rfl,
      show c1poiB.rating = some (47/10) from rfl]
  simp only [scorePOIs, List.map_cons, List.map_nil, hcX1, hcX2, hcA, hcB,
    hsX1, hsX2, hsA, hsB]
  norm_num [sortBy, insertBy, c1sX1, c1sX2, c1sA, c1sB]

/-- Filtering of the single C1 event. -/
theorem c1_filtered : filterEvents c1ctx c1now [c1event] = [c1sE] := by
  norm_num [filterEvents, c1sE, jsOr,
    show inferredMin c1event = 50 from rfl,
    show c1event.price = none from rfl,
    show c1now.ms = 0 from rfl,
    show c1event.start_date.ms = 1000 from rfl,
    show c1ctx.partySize = 1 from rfl]

/-- The two generated days of the C1 counterexample. -/
theorem c1_itinerary :
    generateDayWiseItinerary c1ctx hav0 c1now [c1sX1, c1sX2, c1sA, c1sB] [c1sE] 2 c1obs
        (assessWeatherImpact (some c1obs)) = [c1day1, c1day2] := by
  norm_num [generateDayWiseItinerary, buildDay, dayPoisOf, selectedPoisOf, poisPerDayOf,
    jsCeilDiv, dayEventsOf, optimizeDayActivities, getActivityNotes, sortBy, insertBy,
    annotateTravel, annotateFrom, applyTravel, estimateTravelMinutes, sumTravelKm,
    sumPoiCosts, sumEventCosts, jsRound, dailyBudgetOf, pruneDay, pruneRev,
    getDayWeatherRecommendation, entryCost, ActSource.cost, ActSource.coords,
    c1ctx, c1obs, c1now, c1sX1, c1sX2, c1sA, c1sB, c1sE, c1poiX1, c1poiX2, c1poiA,
    c1poiB, c1event, c1day1, c1day2, hav0, List.range_succ, List.range_zero,
    show assessWeatherImpact (some c1obs) =
      { outdoor_activities := some "unfavorable", beach_activities := some "unfavorable",
        indoor_activities := some "favorable" } from rfl,
    show (("Rain" : String) = "Rain") = True from by simp,
    show (("beach" : String) = "indoor") = False from by
      simp only [eq_iff_iff, iff_false]
      decide,
    show (("indoor" : String) = "indoor") = True from by simp,
    show (("beach" : String) = "beach") = True from by simp,
    show (("indoor" : String) = "beach") = False from by
      simp only [eq_iff_iff, iff_false]
      decide,
    show (("indoor" : String) = "outdoor") = False from by
      simp only [eq_iff_iff, iff_false]
      decide,
    show (("beach" : String) = "outdoor") = False from by
      simp only [eq_iff_iff, iff_false]
      decide,
    show timeLe "13:00" "09:00" = false from by decide,
    show timeLe "09:00" "13:00" = true from by decide,
    show timeLe "09:00" "07:00" = false from by decide,
    show timeLe "13:00" "07:00" = false from by decide,
    show timeLe "07:00" "09:00" = true from by decide,
    show timeLe "07:00" "13:00" = true from by decide,
    show String.intercalate ". " ["Consider indoor alternatives due to rain"] =
      "Consider indoor alternatives due to rain" from by decide,
    show String.intercalate ". " ([] : List String) = "" from by decide]

/-- C1, counterexample: the claim says every alternative of an over-budget
request has savings ≥ 0; on this request (total cost 1090, budget 400) the
`reduce_duration` alternative reports savings −1150 < 0, because the dropped
final day's estimated cost had been driven negative by the per-day budget
trim (its popped duplicate slot was billed once but popped twice). -/
theorem c1_counterexample :
    (optimizeItinerary c1ctx hav0 c1now (some c1obs)
        [c1poiX1, c1poiX2, c1poiA, c1poiB] [c1event] 2).budget_status = "over_budget" ∧
      ((optimizeItinerary c1ctx hav0 c1now (some c1obs)
          [c1poiX1, c1poiX2, c1poiA, c1poiB] [c1event] 2).alternatives.getD 2
        altDefault).savings = -1150 ∧
      (-1150 : ℚ) < 0 := by
  have hit : generateDayWiseItinerary c1ctx hav0 c1now
      (scorePOIs c1ctx [c1poiX1, c1poiX2, c1poiA, c1poiB] (getBudgetAllocation c1ctx))
      (filterEvents c1ctx c1now [c1event]) 2
      ((some c1obs).getD { temperature := none, condition := none })
      (assessWeatherImpact (some c1obs)) = [c1day1, c1day2] := by
    rw [c1_scored, c1_filtered]
    exact c1_itinerary
  have htot : calculateTotalCost [c1day1, c1day2] = 1090 := by
    norm_num [calculateTotalCost, c1day1, c1day2]
  have hcond : ¬(calculateTotalCost (generateDayWiseItinerary c1ctx hav0 c1now
      (scorePOIs c1ctx [c1poiX1, c1poiX2, c1poiA, c1poiB] (getBudgetAllocation c1ctx))
      (filterEvents c1ctx c1now [c1event]) 2
      ((some c1obs).getD { temperature := none, condition := none })
      (assessWeatherImpact (some c1obs))) ≤ c1ctx.budget * c1ctx.partySize) := by
    rw [hit, htot]
    show ¬((1090 : ℚ) ≤ 400 * ((1 : ℕ) : ℚ))
    norm_num
  refine ⟨?_, ?_, by norm_num⟩
  · show (if calculateTotalCost (generateDayWiseItinerary c1ctx hav0 c1now
        (scorePOIs c1ctx [c1poiX1, c1poiX2, c1poiA, c1poiB] (getBudgetAllocation c1ctx))
        (filterEvents c1ctx c1now [c1event]) 2
        ((some c1obs).getD { temperature := none, condition := none })
        (assessWeatherImpact (some c1obs))) ≤ c1ctx.budget * c1ctx.partySize
        then "within_budget" else "over_budget") = "over_budget"
    rw [if_neg hcond]
  · have halts : (optimizeItinerary c1ctx hav0 c1now (some c1obs)
        [c1poiX1, c1poiX2, c1poiA, c1poiB] [c1event] 2).alternatives =
        generateBudgetAlternatives [c1day1, c1day2] (c1ctx.budget * c1ctx.partySize) := by
      show (if (if calculateTotalCost (generateDayWiseItinerary c1ctx hav0 c1now
          (scorePOIs c1ctx [c1poiX1, c1poiX2, c1poiA, c1poiB] (getBudgetAllocation c1ctx))
          (filterEvents c1ctx c1now [c1event]) 2
          ((some c1obs).getD { temperature := none, condition := none })
          (assessWeatherImpact (some c1obs))) ≤ c1ctx.budget * c1ctx.partySize
          then "within_budget" else "over_budget") == "over_budget"
          then generateBudgetAlternatives (generateDayWiseItinerary c1ctx hav0 c1now
            (scorePOIs c1ctx [c1poiX1, c1poiX2, c1poiA, c1poiB]
              (getBudgetAllocation c1ctx))
            (filterEvents c1ctx c1now [c1event]) 2
            ((some c1obs).getD { temperature := none, condition := none })
            (assessWeatherImpact (some c1obs))) (c1ctx.budget * c1ctx.partySize)
          else []) = _
      rw [if_neg hcond, hit]
      simp
    rw [halts, generateBudgetAlternatives_eq]
    simp only [List.getD, List.get?, deepCopyItinerary_id]
    norm_num [calculateTotalCost, c1day1, c1day2, altDefault]

end GoaGuide

